import Mathlib

/-!
OV5640 image sensor driver (drivers/media/i2c/soc_camera/ov5640-common.c)

A shallow embedding of the register I/O layer, the control mapping, the
frame-size and pixel-format negotiation, the frame-size enumeration, the
frame-rate control, the streaming switch and the init sequence of the driver,
followed by theorems about them.

Conventions of the embedding

* Machine integers are naturals or integers with the reduction modulo a power
  of two written out where the C code can wrap.
* The I2C transport is an environment: the result of every transfer is given
  by a function of the transfer's position in the log, and every transfer the
  driver performs is appended to the log.
* The tables of ov5640-common.h (frame sizes, pixel formats, register
  sequences) are not part of the sources at hand and are parameters.
* A table that the C code walks through a pointer is a function from the
  index to the record found there together with its ARRAY_SIZE: the indexes
  below ARRAY_SIZE are the table, the others are whatever memory surrounds it.
  A plain field of a record around the table (width, height, code) is read as
  it stands there. The pointer field of such a record (regs,
  format_ctrl_regs) points to no register table of the driver: a read through
  it is undefined, and the operation that performs it has no result.
* The mutex is not modelled: every operation runs alone.
-/

namespace Ov5640

/-! ## Constants of the kernel headers -/

/-- I/O error number of errno-base.h. -/
def EIO : Int := 5

/-- Busy error number of errno-base.h. -/
def EBUSY : Int := 16

/-- No-such-device error number of errno-base.h. -/
def ENODEV : Int := 19

/-- Invalid-argument error number of errno-base.h. -/
def EINVAL : Int := 22

/-- Range error number of errno-base.h. -/
def ERANGE : Int := 34

/-- Largest unsigned int of the 32-bit target. -/
def UINT_MAX : Nat := 2 ^ 32 - 1

/-- Colorspace identifier sRGB of videodev2.h. -/
def V4L2_COLORSPACE_SRGB : Nat := 8

/-- Field order "progressive, no interlacing" of videodev2.h. -/
def V4L2_FIELD_NONE : Nat := 1

/-- Scene mode "night" of enum v4l2_scene_mode. -/
def V4L2_SCENE_MODE_NIGHT : Int := 8

/-- Scene mode "sunset" of enum v4l2_scene_mode. -/
def V4L2_SCENE_MODE_SUNSET : Int := 12

/-! ## Data model -/

/-- One record of a register table, struct sensor_register: a 16-bit register
address and the 8-bit value to store there. -/
structure sensor_register where
  addr : Nat
  value : Nat
deriving DecidableEq, Repr

/-- Record number i of a register table. A table is the list of its records;
the end of the list stands for the all-zero record that closes every table,
so a read at or behind the end finds address zero. -/
def reg_at (regs : List sensor_register) (i : Nat) : sensor_register :=
  regs.getD i ⟨0, 0⟩

/-- Frame-size descriptor, struct ov5640_framesize: a resolution and the
register table that programs the readout window for it. -/
structure ov5640_framesize where
  width : Nat
  height : Nat
  regs : List sensor_register
deriving DecidableEq, Repr

/-- Pixel-format descriptor, struct ov5640_pixfmt: a media bus code and the
register table that programs the output format. -/
structure ov5640_pixfmt where
  code : Nat
  format_ctrl_regs : List sensor_register
deriving DecidableEq, Repr

/-- Media bus frame format, the fields of struct v4l2_mbus_framefmt the driver
touches. -/
structure v4l2_mbus_framefmt where
  width : Nat
  height : Nat
  code : Nat
  field : Nat
  colorspace : Nat
deriving DecidableEq, Repr

/-- One transfer on the I2C bus: i2c_master_send with the bytes handed over, or
i2c_master_recv with the number of bytes asked for. -/
inductive i2c_xfer where
  | master_send (data : List Nat)
  | master_recv (count : Nat)
deriving DecidableEq, Repr

/-- The I2C client behind a non-NULL struct i2c_client pointer. The field send
gives the return value of i2c_master_send from the position of the transfer in
the log and the bytes; recv gives the return value of i2c_master_recv and the
byte left in the one-byte buffer from the position and the byte the buffer held
before; xfers is the log of the transfers performed so far, oldest first. -/
structure i2c_client where
  send : Nat → List Nat → Int
  recv : Nat → Nat → Int × Nat
  xfers : List i2c_xfer

/-- The two catalogs of ov5640-common.h as the C code reads them: the record
found at index i behind the base pointer, and ARRAY_SIZE of each table. The
indexes below the size are the catalog. -/
structure catalog where
  ov5640_framesizes : Nat → ov5640_framesize
  n_framesizes : Nat
  ov5640_formats : Nat → ov5640_pixfmt
  n_formats : Nat
  framesizes_fit : n_framesizes < 2 ^ 31
  formats_fit : n_formats < 2 ^ 32

/-- Device instance, struct ov5640: the bus handle (none for a NULL pointer),
the committed format, the selected frame-size descriptor (a pointer into the
frame-size table, kept as its index), the selected format register table, the
streaming flag and the frame rate. -/
structure ov5640 where
  client : Option i2c_client
  format : v4l2_mbus_framefmt
  frame_size : Nat
  format_ctrl_regs : List sensor_register
  streaming : Int
  frame_rate : Nat

/-! ## Register I/O layer -/

/-- Source function ov5640_write: send the three bytes address high, address
low, value; 0 when all three were sent. -/
def ov5640_write (client : Option i2c_client) (reg val : Nat) : Int × Option i2c_client :=
  let data := [(reg % 2 ^ 16) >>> 8, (reg % 2 ^ 16) &&& 0xff, val % 2 ^ 8]
  match client with
  | none => (- EIO, none)
  | some c =>
    let ret := c.send c.xfers.length data
    let c1 : i2c_client := ⟨c.send, c.recv, c.xfers ++ [i2c_xfer.master_send data]⟩
    if ret < 3 then (if ret < 0 then ret else - EIO, some c1) else (0, some c1)

/-- Source function ov5640_read: send the two address bytes, then receive one
byte into val. The result is the return value, the content of val afterwards
and the client. -/
def ov5640_read (client : Option i2c_client) (reg : Nat) (val : Nat) :
    Int × Nat × Option i2c_client :=
  let data := [(reg % 2 ^ 16) >>> 8, (reg % 2 ^ 16) &&& 0xff]
  match client with
  | none => (- EIO, val, none)
  | some c =>
    let ret := c.send c.xfers.length data
    let c1 : i2c_client := ⟨c.send, c.recv, c.xfers ++ [i2c_xfer.master_send data]⟩
    if ret < 2 then (if ret < 0 then ret else - EIO, val, some c1)
    else
      let r := c1.recv c1.xfers.length val
      let c2 : i2c_client := ⟨c1.send, c1.recv, c1.xfers ++ [i2c_xfer.master_recv 1]⟩
      if r.1 < 1 then (if r.1 < 0 then r.1 else - EIO, r.2 % 2 ^ 8, some c2)
      else (0, r.2 % 2 ^ 8, some c2)

/-- The loop of ov5640_write_array from the record at hand on, with the value
of ret reached so far: it goes on while ret is 0 and the address is not zero. -/
def write_array_from :
    List sensor_register → Int → Option i2c_client → Int × Option i2c_client
  | [], ret, client => (ret, client)
  | r :: rest, ret, client =>
    if ret = 0 ∧ r.addr ≠ 0 then
      let w := ov5640_write client r.addr r.value
      write_array_from rest w.1 w.2
    else (ret, client)

/-- Source function ov5640_write_array: write the records of a table in order
until the closing record or the first failing write. -/
def ov5640_write_array (client : Option i2c_client) (regs : List sensor_register) :
    Int × Option i2c_client :=
  write_array_from regs 0 client

/-! ## Control mapping layer -/

/-- Source function module_s_mirror: read register 0x3821, set or clear bits 1
and 2, write it back. The results of the read and of the write are dropped. -/
def module_s_mirror (client : Option i2c_client) (mirror : Nat) : Int × Option i2c_client :=
  let ret : Int := 0
  let reg_0x3821 : Nat := 0x00
  let r := ov5640_read client 0x3821 reg_0x3821
  let reg_0x3821 :=
    if mirror ≠ 0 then (r.2.1 ||| (0x3 <<< 1)) % 2 ^ 8
    else (r.2.1 &&& (0xffffffff ^^^ (0x3 <<< 1))) % 2 ^ 8
  let w := ov5640_write r.2.2 0x3821 reg_0x3821
  (ret, w.2)

/-- Source function module_s_flip: the same on register 0x3820, whose local
copy starts from 0x40. -/
def module_s_flip (client : Option i2c_client) (flip : Nat) : Int × Option i2c_client :=
  let ret : Int := 0
  let reg_0x3820 : Nat := 0x40
  let r := ov5640_read client 0x3820 reg_0x3820
  let reg_0x3820 :=
    if flip ≠ 0 then (r.2.1 ||| (0x3 <<< 1)) % 2 ^ 8
    else (r.2.1 &&& (0xffffffff ^^^ (0x3 <<< 1))) % 2 ^ 8
  let w := ov5640_write r.2.2 0x3820 reg_0x3820
  (ret, w.2)

/-- Source function ov5640_set_test_pattern: the values 0, 1 and 3 are only
logged, nothing is written. -/
def ov5640_set_test_pattern (client : Option i2c_client) (_value : Int) :
    Int × Option i2c_client :=
  (0, client)

/-- The case labels of the switch over ctrl->id in ov5640_s_ctrl; other stands
for an identifier that equals none of them. -/
inductive ctrl_id where
  | V4L2_CID_BRIGHTNESS
  | V4L2_CID_CONTRAST
  | V4L2_CID_SCENE_MODE_ZGB
  | V4L2_CID_EXPOSURE
  | V4L2_CID_MIRROR_ZGB
  | V4L2_CID_FLIP_ZGB
  | V4L2_SPECIAL_EFFECTS_ZGB
  | V4L2_CID_TEST_PATTERN
  | V4L2_CID_WHITE_BALANCE_ZGB
  | other
deriving DecidableEq, Repr

/-- The register tables and the enumerators of ov5640-common.h that
ov5640_s_ctrl names. -/
structure ctrl_tables where
  module_brightness_0_regs : List sensor_register
  module_brightness_1_regs : List sensor_register
  module_brightness_2_regs : List sensor_register
  module_brightness_3_regs : List sensor_register
  module_brightness_4_regs : List sensor_register
  module_brightness_5_regs : List sensor_register
  module_brightness_6_regs : List sensor_register
  module_brightness_7_regs : List sensor_register
  module_brightness_8_regs : List sensor_register
  module_contrast_0_regs : List sensor_register
  module_contrast_1_regs : List sensor_register
  module_contrast_2_regs : List sensor_register
  module_contrast_3_regs : List sensor_register
  module_contrast_4_regs : List sensor_register
  module_contrast_5_regs : List sensor_register
  module_contrast_6_regs : List sensor_register
  module_exp_comp_pos4_regs : List sensor_register
  module_exp_comp_pos3_regs : List sensor_register
  module_exp_comp_pos2_regs : List sensor_register
  module_exp_comp_pos1_regs : List sensor_register
  module_exp_comp_zero_regs : List sensor_register
  module_exp_comp_neg1_regs : List sensor_register
  module_exp_comp_neg2_regs : List sensor_register
  module_exp_comp_neg3_regs : List sensor_register
  module_exp_comp_neg4_regs : List sensor_register
  Normal_Effect : Int
  Blueish_Effect : Int
  Redish_Effect : Int
  BandW_Effect : Int
  Sepia_Effect : Int
  Negative_Effect : Int
  Greenish_Effect : Int
  Overexposure_Effect : Int
  Solarize_Effect : Int
  module_Normal_Effect_regs : List sensor_register
  module_Blueish_Effect_regs : List sensor_register
  module_Redish_Effect_regs : List sensor_register
  module_BandW_Effect_regs : List sensor_register
  module_Sepia_Effect_regs : List sensor_register
  module_Negative_Effect_regs : List sensor_register
  module_Greenish_Effect_regs : List sensor_register
  Overexposure_Effect_regs : List sensor_register
  module_Solarize_Effect_regs : List sensor_register
  WhiteBalance_Auto : Int
  WhiteBalance_Sunny : Int
  WhiteBalance_Office : Int
  WhiteBalance_Cloudy : Int
  WhiteBalance_Home : Int
  module_WhiteBalance_Auto_regs : List sensor_register
  module_WhiteBalance_Sunny_regs : List sensor_register
  module_WhiteBalance_Office_regs : List sensor_register
  module_WhiteBalance_Cloudy_regs : List sensor_register
  module_WhiteBalance_Home_regs : List sensor_register

/-- The brightness branch of ov5640_s_ctrl: the switch over ctrl->val. The
result of ov5640_write_array is dropped. -/
def s_ctrl_brightness (t : ctrl_tables) (client : Option i2c_client) (val : Int) :
    Int × Option i2c_client :=
  match val with
  | 0 => (0, (ov5640_write_array client t.module_brightness_0_regs).2)
  | 1 => (0, (ov5640_write_array client t.module_brightness_1_regs).2)
  | 2 => (0, (ov5640_write_array client t.module_brightness_2_regs).2)
  | 3 => (0, (ov5640_write_array client t.module_brightness_3_regs).2)
  | 4 => (0, (ov5640_write_array client t.module_brightness_4_regs).2)
  | 5 => (0, (ov5640_write_array client t.module_brightness_5_regs).2)
  | 6 => (0, (ov5640_write_array client t.module_brightness_6_regs).2)
  | 7 => (0, (ov5640_write_array client t.module_brightness_7_regs).2)
  | 8 => (0, (ov5640_write_array client t.module_brightness_8_regs).2)
  | _ => (- EINVAL, client)

/-- The contrast branch of ov5640_s_ctrl. -/
def s_ctrl_contrast (t : ctrl_tables) (client : Option i2c_client) (val : Int) :
    Int × Option i2c_client :=
  match val with
  | 3 => (0, (ov5640_write_array client t.module_contrast_6_regs).2)
  | 2 => (0, (ov5640_write_array client t.module_contrast_5_regs).2)
  | 1 => (0, (ov5640_write_array client t.module_contrast_4_regs).2)
  | 0 => (0, (ov5640_write_array client t.module_contrast_3_regs).2)
  | -1 => (0, (ov5640_write_array client t.module_contrast_2_regs).2)
  | -2 => (0, (ov5640_write_array client t.module_contrast_1_regs).2)
  | -3 => (0, (ov5640_write_array client t.module_contrast_0_regs).2)
  | _ => (- EINVAL, client)

/-- The scene-mode branch of ov5640_s_ctrl: one direct write to 0x3a00 for
night and for sunset. -/
def s_ctrl_scene_mode (client : Option i2c_client) (val : Int) : Int × Option i2c_client :=
  if val = V4L2_SCENE_MODE_NIGHT then (0, (ov5640_write client 0x3a00 0x3c).2)
  else if val = V4L2_SCENE_MODE_SUNSET then (0, (ov5640_write client 0x3a00 0x38).2)
  else (- ERANGE, client)

/-- The exposure branch of ov5640_s_ctrl: the default label only breaks, and
the branch returns 0 behind the switch. -/
def s_ctrl_exposure (t : ctrl_tables) (client : Option i2c_client) (val : Int) :
    Int × Option i2c_client :=
  match val with
  | 4 => (0, (ov5640_write_array client t.module_exp_comp_pos4_regs).2)
  | 3 => (0, (ov5640_write_array client t.module_exp_comp_pos3_regs).2)
  | 2 => (0, (ov5640_write_array client t.module_exp_comp_pos2_regs).2)
  | 1 => (0, (ov5640_write_array client t.module_exp_comp_pos1_regs).2)
  | 0 => (0, (ov5640_write_array client t.module_exp_comp_zero_regs).2)
  | -1 => (0, (ov5640_write_array client t.module_exp_comp_neg1_regs).2)
  | -2 => (0, (ov5640_write_array client t.module_exp_comp_neg2_regs).2)
  | -3 => (0, (ov5640_write_array client t.module_exp_comp_neg3_regs).2)
  | -4 => (0, (ov5640_write_array client t.module_exp_comp_neg4_regs).2)
  | _ => (0, client)

/-- The special-effects branch of ov5640_s_ctrl. The greenish case breaks
instead of returning and reaches the return 0 behind the switch. -/
def s_ctrl_effects (t : ctrl_tables) (client : Option i2c_client) (val : Int) :
    Int × Option i2c_client :=
  if val = t.Normal_Effect then (0, (ov5640_write_array client t.module_Normal_Effect_regs).2)
  else if val = t.Blueish_Effect then
    (0, (ov5640_write_array client t.module_Blueish_Effect_regs).2)
  else if val = t.Redish_Effect then
    (0, (ov5640_write_array client t.module_Redish_Effect_regs).2)
  else if val = t.BandW_Effect then
    (0, (ov5640_write_array client t.module_BandW_Effect_regs).2)
  else if val = t.Sepia_Effect then
    (0, (ov5640_write_array client t.module_Sepia_Effect_regs).2)
  else if val = t.Negative_Effect then
    (0, (ov5640_write_array client t.module_Negative_Effect_regs).2)
  else if val = t.Greenish_Effect then
    (0, (ov5640_write_array client t.module_Greenish_Effect_regs).2)
  else if val = t.Overexposure_Effect then
    (0, (ov5640_write_array client t.Overexposure_Effect_regs).2)
  else if val = t.Solarize_Effect then
    (0, (ov5640_write_array client t.module_Solarize_Effect_regs).2)
  else (- EINVAL, client)

/-- The white-balance branch of ov5640_s_ctrl. -/
def s_ctrl_white_balance (t : ctrl_tables) (client : Option i2c_client) (val : Int) :
    Int × Option i2c_client :=
  if val = t.WhiteBalance_Auto then
    (0, (ov5640_write_array client t.module_WhiteBalance_Auto_regs).2)
  else if val = t.WhiteBalance_Sunny then
    (0, (ov5640_write_array client t.module_WhiteBalance_Sunny_regs).2)
  else if val = t.WhiteBalance_Office then
    (0, (ov5640_write_array client t.module_WhiteBalance_Office_regs).2)
  else if val = t.WhiteBalance_Cloudy then
    (0, (ov5640_write_array client t.module_WhiteBalance_Cloudy_regs).2)
  else if val = t.WhiteBalance_Home then
    (0, (ov5640_write_array client t.module_WhiteBalance_Home_regs).2)
  else (- EINVAL, client)

/-- Source function ov5640_s_ctrl: the switch over the control identifier.
Only the bus handle of the device is used and changed. The value of a mirror
or flip request is handed over as an unsigned int. -/
def ov5640_s_ctrl (t : ctrl_tables) (d : ov5640) (id : ctrl_id) (val : Int) : Int × ov5640 :=
  let r : Int × Option i2c_client :=
    match id with
    | ctrl_id.V4L2_CID_BRIGHTNESS => s_ctrl_brightness t d.client val
    | ctrl_id.V4L2_CID_CONTRAST => s_ctrl_contrast t d.client val
    | ctrl_id.V4L2_CID_SCENE_MODE_ZGB => s_ctrl_scene_mode d.client val
    | ctrl_id.V4L2_CID_EXPOSURE => s_ctrl_exposure t d.client val
    | ctrl_id.V4L2_CID_MIRROR_ZGB => module_s_mirror d.client (val % 2 ^ 32).toNat
    | ctrl_id.V4L2_CID_FLIP_ZGB => module_s_flip d.client (val % 2 ^ 32).toNat
    | ctrl_id.V4L2_SPECIAL_EFFECTS_ZGB => s_ctrl_effects t d.client val
    | ctrl_id.V4L2_CID_TEST_PATTERN => ov5640_set_test_pattern d.client val
    | ctrl_id.V4L2_CID_WHITE_BALANCE_ZGB => s_ctrl_white_balance t d.client val
    | ctrl_id.other => (- EINVAL, d.client)
  (r.1, ⟨r.2, d.format, d.frame_size, d.format_ctrl_regs, d.streaming, d.frame_rate⟩)

/-! ## Format and frame-size negotiation -/

/-- The kernel macro abs on a 32-bit operand: the operand is read as a signed
number (two's complement) and negated when negative. Operand and result are
given by their 32-bit patterns. -/
def kernel_abs (x : Nat) : Nat :=
  if x % 2 ^ 32 < 2 ^ 31 then x % 2 ^ 32 else (2 ^ 32 - x % 2 ^ 32) % 2 ^ 32

/-- The value of err in ov5640_try_frame_size for one descriptor: the
subtractions are unsigned 32-bit, the sum is stored in an int; the result is
its 32-bit pattern, which is what the comparison with min_err uses. -/
def frame_err (fsize : ov5640_framesize) (mf : v4l2_mbus_framefmt) : Nat :=
  (kernel_abs ((fsize.width % 2 ^ 32 + 2 ^ 32 - mf.width % 2 ^ 32) % 2 ^ 32)
    + kernel_abs ((fsize.height % 2 ^ 32 + 2 ^ 32 - mf.height % 2 ^ 32) % 2 ^ 32)) % 2 ^ 32

/-- The while loop of ov5640_try_frame_size: i iterations are left, fsize is
the index the pointer stands at, min_err and the match found so far (none for
NULL). Every iteration reads the width and the height of the record at fsize;
the right operand of the conjunction, fsize->regs[0].addr, is evaluated only
when err is below min_err. For a record behind the last entry of the table
that read goes through a pointer that is no register table of the driver and
is undefined: the loop has no result then (outer none). Otherwise the result
is the match behind the loop. -/
def try_frame_size_loop (c : catalog) (mf : v4l2_mbus_framefmt) :
    Nat → Nat → Nat → Option Nat → Option (Option Nat)
  | 0, _, _, found => some found
  | i + 1, fsize, min_err, found =>
    let err := frame_err (c.ov5640_framesizes fsize) mf
    if err < min_err then
      if fsize < c.n_framesizes then
        if (reg_at (c.ov5640_framesizes fsize).regs 0).addr ≠ 0 then
          try_frame_size_loop c mf i (fsize + 1) err (some fsize)
        else
          try_frame_size_loop c mf i (fsize + 1) min_err found
      else none
    else
      try_frame_size_loop c mf i (fsize + 1) min_err found

/-- Source function ov5640_try_frame_size: the pointer starts at entry 2 of
the frame-size table and the loop runs ARRAY_SIZE times; without a match the
entry 2 is taken. The result is none when the loop reads through the register
pointer of a record behind the table, otherwise the request with width and
height overwritten and the descriptor handed back through size, as its
index. -/
def ov5640_try_frame_size (c : catalog) (mf : v4l2_mbus_framefmt) :
    Option (v4l2_mbus_framefmt × Nat) :=
  match try_frame_size_loop c mf c.n_framesizes 2 UINT_MAX none with
  | none => none
  | some found =>
    let m := match found with
      | some k => k
      | none => 2
    some (⟨(c.ov5640_framesizes m).width, (c.ov5640_framesizes m).height, mf.code, mf.field,
      mf.colorspace⟩, m)

/-- The decrement of an unsigned int: 0 wraps to UINT_MAX. -/
def u32_dec (x : Nat) : Nat :=
  if x = 0 then UINT_MAX else x - 1

/-- The loop over the format table in ov5640_set_fmt: index is an unsigned int,
so the decrement wraps from 0 to 2^32 - 1 and the test index >= 0 holds always.
The first argument bounds the number of iterations; the result is the index at
the break, or none when the loop is still running after that many. -/
def set_fmt_loop (c : catalog) (code : Nat) : Nat → Nat → Option Nat
  | 0, _ => none
  | n + 1, index =>
    let index := u32_dec index
    if index ≥ 0 then
      if (c.ov5640_formats index).code = code then some index
      else set_fmt_loop c code n index
    else some index

/-- The number of iterations after which the unsigned index of the loop in
ov5640_set_fmt is back at its start value: a loop that has not broken by then
never will. -/
def index_period : Nat := 2 ^ 32

/-- Source function ov5640_set_fmt. The result is none when the call does not
return: the frame-size lookup has no result, the loop over the format table
never ends (it has not broken after a full period of the index), or one of the
two batch writes would read through the register pointer of a record that is
not an entry of its table. Otherwise the result is the return value, the
request as written back and the device. -/
def ov5640_set_fmt (c : catalog) (d : ov5640) (mf : v4l2_mbus_framefmt) :
    Option (Int × v4l2_mbus_framefmt × ov5640) :=
  let ret : Int := 0
  match ov5640_try_frame_size c mf with
  | none => none
  | some ts =>
    let mf := ts.1
    let size := ts.2
    match set_fmt_loop c mf.code index_period (c.n_formats % 2 ^ 32) with
    | none => none
    | some index =>
      if index < 0 then some (- EINVAL, mf, d)
      else
        let mf : v4l2_mbus_framefmt :=
          ⟨mf.width, mf.height, (c.ov5640_formats index).code, V4L2_FIELD_NONE,
            V4L2_COLORSPACE_SRGB⟩
        if d.streaming ≠ 0 then some (- EBUSY, mf, d)
        else
          let d1 : ov5640 :=
            ⟨d.client, mf, size, (c.ov5640_formats index).format_ctrl_regs, d.streaming,
              d.frame_rate⟩
          if d1.frame_size < c.n_framesizes ∧ index < c.n_formats then
            let w1 := ov5640_write_array d1.client (c.ov5640_framesizes d1.frame_size).regs
            let w2 := ov5640_write_array w1.2 d1.format_ctrl_regs
            some (ret, mf, ⟨w2.2, d1.format, d1.frame_size, d1.format_ctrl_regs, d1.streaming,
              d1.frame_rate⟩)
          else none

/-! ## Streaming switch -/

/-- Source function ov5640_start_stop_stream: on is normalised to 0 or 1, the
flag is stored, then register 0x3007 is written and the result of that write
returned. The parameter on of the source is on_ here. -/
def ov5640_start_stop_stream (d : ov5640) (on_ : Int) : Int × ov5640 :=
  let on_ : Int := if on_ ≠ 0 then 1 else 0
  if on_ = 0 then
    let w := ov5640_write d.client 0x3007 0x00
    (w.1, ⟨w.2, d.format, d.frame_size, d.format_ctrl_regs, on_, d.frame_rate⟩)
  else
    let w := ov5640_write d.client 0x3007 0xff
    (w.1, ⟨w.2, d.format, d.frame_size, d.format_ctrl_regs, on_, d.frame_rate⟩)

/-! ## Frame-size enumeration -/

/-- The fields of struct v4l2_subdev_frame_size_enum the driver touches. -/
structure v4l2_subdev_frame_size_enum where
  index : Nat
  code : Nat
  min_width : Nat
  max_width : Nat
  min_height : Nat
  max_height : Nat
deriving DecidableEq, Repr

/-- The loop while (--i) of ov5640_enum_frame_sizes; the argument is the value
of the int i in front of the decrement. The result is the value of i behind the
loop, or none when the decrement leaves 0 for -1 and the scan goes on in front
of the format table, which the embedding does not follow. -/
def enum_frame_sizes_loop (c : catalog) (code : Nat) : Nat → Option Nat
  | 0 => none
  | 1 => some 0
  | i + 2 =>
    if code = (c.ov5640_formats (i + 1)).code then some (i + 1)
    else enum_frame_sizes_loop c code (i + 1)

/-- Source function ov5640_enum_frame_sizes: the return value and the
enumeration record as written back. -/
def ov5640_enum_frame_sizes (c : catalog) (fse : v4l2_subdev_frame_size_enum) :
    Option (Int × v4l2_subdev_frame_size_enum) :=
  if fse.index ≥ c.n_framesizes then some (- EINVAL, fse)
  else
    match enum_frame_sizes_loop c fse.code c.n_formats with
    | none => none
    | some i =>
      let min_width := (c.ov5640_framesizes fse.index).width
      let max_height := (c.ov5640_framesizes fse.index).height
      some (0, ⟨fse.index, (c.ov5640_formats i).code, min_width, min_width, max_height,
        max_height⟩)

/-! ## Frame-rate control -/

/-- Source function ov5640_get_framerate on the denominator of the frame
interval: the return value and the denominator afterwards. -/
def ov5640_get_framerate (d : ov5640) (denominator : Nat) : Int × Nat :=
  if d.frame_rate > 30 then (- EINVAL, denominator)
  else (0, (d.frame_rate % 2 ^ 32) &&& 0x0000ffff)

/-- Source function ov5640_set_framerate on the denominator of the frame
interval. The denominator is cut to an unsigned char and stored, then compared
with 30; the pair of values for the registers 0x3035 and 0x3036 depends on the
frame rate and on the width of the selected frame size; register 0x3035 is read
back for the log only. The results of the writes and of the read are dropped. -/
def ov5640_set_framerate (c : catalog) (d : ov5640) (denominator : Nat) : Int × ov5640 :=
  let frame_rate := (denominator % 2 ^ 32) % 2 ^ 8
  let d1 : ov5640 :=
    ⟨d.client, d.format, d.frame_size, d.format_ctrl_regs, d.streaming, frame_rate⟩
  if d1.frame_rate > 30 then (- EINVAL, d1)
  else
    let width := (c.ov5640_framesizes d1.frame_size).width
    let pll : Nat × Nat :=
      if d1.frame_rate > 15 then
        if width = 1024 then (0x21, 0x69)
        else if width = 1280 then (0x21, 0x69)
        else (0x11, 0x46)
      else
        if width = 1024 then (0x21, 0x46)
        else if width = 1280 then (0x41, 0x69)
        else (0x21, 0x46)
    let w1 := ov5640_write d1.client 0x3035 pll.1
    let w2 := ov5640_write w1.2 0x3036 pll.2
    let r := ov5640_read w2.2 0x3035 0
    (0, ⟨r.2.2, d1.format, d1.frame_size, d1.format_ctrl_regs, d1.streaming, d1.frame_rate⟩)

/-! ## Lifecycle -/

/-- The constants and the default register table of ov5640-common.h that
ov5640_init names. -/
structure init_tables where
  REG_CHIP_ID_HIGH : Nat
  REG_CHIP_ID_LOW : Nat
  OV5640_ID : Nat
  ov5640_ini_vga : List sensor_register

/-- Source function ov5640_init. The argument power_on is the return value of
soc_camera_power_on; ov5640_reset only drives GPIO lines and sleeps and leaves
no trace here. The locals id_high and id_low start from 0. -/
def ov5640_init (k : init_tables) (power_on : Int) (d : ov5640) : Int × ov5640 :=
  let ret := power_on
  if ret < 0 then (ret, d)
  else
    let r1 := ov5640_read d.client k.REG_CHIP_ID_HIGH 0
    if r1.1 < 0 then
      (r1.1, ⟨r1.2.2, d.format, d.frame_size, d.format_ctrl_regs, d.streaming, d.frame_rate⟩)
    else
      let id := (r1.2.1 <<< 8) % 2 ^ 16
      let r2 := ov5640_read r1.2.2 k.REG_CHIP_ID_LOW 0
      if r2.1 < 0 then
        (r2.1, ⟨r2.2.2, d.format, d.frame_size, d.format_ctrl_regs, d.streaming, d.frame_rate⟩)
      else
        let id := id ||| r2.2.1
        if id ≠ k.OV5640_ID then
          (- ENODEV,
            ⟨r2.2.2, d.format, d.frame_size, d.format_ctrl_regs, d.streaming, d.frame_rate⟩)
        else
          let w1 := ov5640_write r2.2.2 0x3103 0x11
          let w2 := ov5640_write w1.2 0x3008 0x82
          let w3 := ov5640_write_array w2.2 k.ov5640_ini_vga
          let w4 := ov5640_write w3.2 0x3007 0x00
          (w3.1, ⟨w4.2, d.format, d.frame_size, d.format_ctrl_regs, d.streaming, d.frame_rate⟩)

/-! ## Notions the statements use -/

/-- The three bytes ov5640_write sends for a register and a value. -/
def write_bytes (reg val : Nat) : List Nat :=
  [(reg % 2 ^ 16) >>> 8, (reg % 2 ^ 16) &&& 0xff, val % 2 ^ 8]

/-- The records of a register table in front of its first zero address: the
register sequence the table stands for. -/
def sequence_of (regs : List sensor_register) : List sensor_register :=
  regs.takeWhile (fun r => decide (r.addr ≠ 0))

/-- The bus transfers that write a whole register sequence, in order. -/
def sequence_xfers (regs : List sensor_register) : List i2c_xfer :=
  (sequence_of regs).map (fun r => i2c_xfer.master_send (write_bytes r.addr r.value))

/-- The device with another bus handle and everything else as before. -/
def with_client (d : ov5640) (client : Option i2c_client) : ov5640 :=
  ⟨client, d.format, d.frame_size, d.format_ctrl_regs, d.streaming, d.frame_rate⟩

/-- The log of a bus handle, none for a NULL handle. -/
def log_of (client : Option i2c_client) : Option (List i2c_xfer) :=
  client.map (fun c => c.xfers)

/-- The table module_brightness_v_regs for v from 0 to 8. -/
def module_brightness_regs (t : ctrl_tables) (v : Nat) : List sensor_register :=
  match v with
  | 0 => t.module_brightness_0_regs
  | 1 => t.module_brightness_1_regs
  | 2 => t.module_brightness_2_regs
  | 3 => t.module_brightness_3_regs
  | 4 => t.module_brightness_4_regs
  | 5 => t.module_brightness_5_regs
  | 6 => t.module_brightness_6_regs
  | 7 => t.module_brightness_7_regs
  | _ => t.module_brightness_8_regs

/-- The table module_contrast_k_regs for k from 0 to 6. -/
def module_contrast_regs (t : ctrl_tables) (k : Nat) : List sensor_register :=
  match k with
  | 0 => t.module_contrast_0_regs
  | 1 => t.module_contrast_1_regs
  | 2 => t.module_contrast_2_regs
  | 3 => t.module_contrast_3_regs
  | 4 => t.module_contrast_4_regs
  | 5 => t.module_contrast_5_regs
  | _ => t.module_contrast_6_regs

/-- The exposure table for a compensation v from -4 to 4: module_exp_comp_neg4
up to module_exp_comp_pos4, numbered here from 0 to 8 by v + 4. -/
def module_exp_comp_regs (t : ctrl_tables) (k : Nat) : List sensor_register :=
  match k with
  | 0 => t.module_exp_comp_neg4_regs
  | 1 => t.module_exp_comp_neg3_regs
  | 2 => t.module_exp_comp_neg2_regs
  | 3 => t.module_exp_comp_neg1_regs
  | 4 => t.module_exp_comp_zero_regs
  | 5 => t.module_exp_comp_pos1_regs
  | 6 => t.module_exp_comp_pos2_regs
  | 7 => t.module_exp_comp_pos3_regs
  | _ => t.module_exp_comp_pos4_regs

/-! ## Sample data -/

/-- A frame-size table of three entries, each with a register sequence. -/
def sample_framesizes : List ov5640_framesize :=
  [⟨640, 480, [⟨0x3808, 0x02⟩, ⟨0x3809, 0x80⟩]⟩,
   ⟨800, 600, [⟨0x3808, 0x03⟩, ⟨0x3809, 0x20⟩]⟩,
   ⟨1280, 720, [⟨0x3808, 0x05⟩, ⟨0x3809, 0x00⟩]⟩]

/-- A format table of two entries. -/
def sample_formats : List ov5640_pixfmt :=
  [⟨0x2008, [⟨0x4300, 0x30⟩, ⟨0x501f, 0x00⟩]⟩,
   ⟨0x1008, [⟨0x4300, 0x61⟩, ⟨0x501f, 0x01⟩]⟩]

/-- The sample tables in memory, three frame sizes and two formats, with zero
bytes around them: the records behind the tables have width, height and code 0
and a NULL register pointer. -/
def sample_catalog : catalog :=
  ⟨fun i => sample_framesizes.getD i ⟨0, 0, []⟩, 3, fun i => sample_formats.getD i ⟨0, []⟩, 2,
    by decide, by decide⟩

/-- A bus on which every transfer succeeds; a read delivers 0x40. -/
def sample_client : i2c_client :=
  ⟨fun _ data => data.length, fun _ _ => (1, 0x40), []⟩

/-- A bus on which no byte is ever acknowledged. -/
def dead_client : i2c_client :=
  ⟨fun _ _ => 0, fun _ b => (0, b), []⟩

/-- A stopped device as ov5640_probe leaves it on the sample tables. -/
def sample_device : ov5640 :=
  ⟨some sample_client, ⟨1280, 720, 0x2008, 1, 8⟩, 2, [⟨0x4300, 0x30⟩, ⟨0x501f, 0x00⟩], 0, 30⟩

/-- The same device while streaming. -/
def sample_streaming_device : ov5640 :=
  ⟨some sample_client, ⟨1280, 720, 0x2008, 1, 8⟩, 2, [⟨0x4300, 0x30⟩, ⟨0x501f, 0x00⟩], 1, 30⟩

/-- The stopped device on the bus that acknowledges nothing. -/
def sample_dead_device : ov5640 :=
  ⟨some dead_client, ⟨1280, 720, 0x2008, 1, 8⟩, 2, [⟨0x4300, 0x30⟩, ⟨0x501f, 0x00⟩], 0, 30⟩

/-- Control tables with one distinct record per table. -/
def sample_tables : ctrl_tables :=
  ⟨[⟨0x5587, 0x00⟩], [⟨0x5587, 0x10⟩], [⟨0x5587, 0x20⟩], [⟨0x5587, 0x30⟩], [⟨0x5587, 0x40⟩],
   [⟨0x5587, 0x50⟩], [⟨0x5587, 0x60⟩], [⟨0x5587, 0x70⟩], [⟨0x5587, 0x80⟩],
   [⟨0x5586, 0x14⟩], [⟨0x5586, 0x18⟩], [⟨0x5586, 0x1c⟩], [⟨0x5586, 0x20⟩], [⟨0x5586, 0x24⟩],
   [⟨0x5586, 0x28⟩], [⟨0x5586, 0x2c⟩],
   [⟨0x3a0f, 0x60⟩], [⟨0x3a0f, 0x58⟩], [⟨0x3a0f, 0x50⟩], [⟨0x3a0f, 0x48⟩], [⟨0x3a0f, 0x38⟩],
   [⟨0x3a0f, 0x30⟩], [⟨0x3a0f, 0x28⟩], [⟨0x3a0f, 0x20⟩], [⟨0x3a0f, 0x18⟩],
   0, 1, 2, 3, 4, 5, 6, 7, 8,
   [⟨0x5580, 0x06⟩], [⟨0x5583, 0xa0⟩], [⟨0x5583, 0x80⟩], [⟨0x5583, 0x81⟩], [⟨0x5583, 0x40⟩],
   [⟨0x5580, 0x46⟩], [⟨0x5583, 0x60⟩], [⟨0x5583, 0xf0⟩], [⟨0x5580, 0x86⟩],
   0, 1, 2, 3, 4,
   [⟨0x3406, 0x00⟩], [⟨0x3406, 0x01⟩], [⟨0x3406, 0x02⟩], [⟨0x3406, 0x03⟩], [⟨0x3406, 0x04⟩]⟩

/-! ## Further notions and sample data -/

/-- The bytes ov5640_read sends for a register: address high, address low. -/
def read_bytes (reg : Nat) : List Nat :=
  [(reg % 2 ^ 16) >>> 8, (reg % 2 ^ 16) &&& 0xff]

/-- The chip identity ov5640_init puts together from the two bytes read. -/
def chip_id (id_high id_low : Nat) : Nat :=
  ((id_high <<< 8) % 2 ^ 16) ||| id_low

/-- The batch write as the specification words it: the pairs are written in
order, the first failing write ends the batch and its error is the result;
when no write fails the result is 0. -/
def write_in_order : List sensor_register → Option i2c_client → Int × Option i2c_client
  | [], client => (0, client)
  | r :: rest, client =>
    let w := ov5640_write client r.addr r.value
    if w.1 ≠ 0 then w else write_in_order rest w.2

/-- The value the mirror and flip handlers write back for a register content r
and a request b, as the specification words it: bits 1 and 2 set for a request
that is not zero, cleared for zero, the other bits of r kept. -/
def orientation_bits (r b : Nat) : Nat :=
  if b ≠ 0 then r ||| 6 else r &&& 0xf9

/-- Constants of the OV5640 and a default table of two records. -/
def sample_init_tables : init_tables :=
  ⟨0x300a, 0x300b, 0x5640, [⟨0x3017, 0x00⟩, ⟨0x3018, 0x00⟩]⟩

/-- A bus that delivers the identity bytes 0x56 and 0x40 and acknowledges
every transfer but the fifth, which is the first register write of
ov5640_init. -/
def first_write_fails_client : i2c_client :=
  ⟨fun k data => if k = 4 then 0 else data.length,
    fun k _ => if k = 1 then (1, 0x56) else (1, 0x40), []⟩

/-- A bus that delivers the identity bytes 0x56 and 0x40 and acknowledges
every transfer. -/
def identity_client : i2c_client :=
  ⟨fun _ data => data.length, fun k _ => if k = 1 then (1, 0x56) else (1, 0x40), []⟩

/-- A bus that delivers the identity bytes 0x26 and 0x42 of another chip. -/
def other_chip_client : i2c_client :=
  ⟨fun _ data => data.length, fun k _ => if k = 1 then (1, 0x26) else (1, 0x42), []⟩

/-- A bus whose transport answers every transfer with the error -6. -/
def nack_client : i2c_client :=
  ⟨fun _ _ => -6, fun _ b => (-6, b), []⟩

/-- A frame-size table of four entries whose entries 2 and 3 are both at
distance 100 from the request 200x100, with zero bytes behind it. -/
def tie_catalog : catalog :=
  ⟨fun i => ([⟨640, 480, [⟨0x3808, 0x02⟩]⟩, ⟨800, 600, [⟨0x3808, 0x03⟩]⟩,
      ⟨100, 100, [⟨0x3808, 0x00⟩]⟩, ⟨300, 100, [⟨0x3808, 0x01⟩]⟩] :
        List ov5640_framesize).getD i ⟨0, 0, []⟩, 4,
    fun i => sample_formats.getD i ⟨0, []⟩, 2, by decide, by decide⟩

/-- A stopped device on the bus whose first register write of ov5640_init
fails. -/
def first_write_fails_device : ov5640 :=
  ⟨some first_write_fails_client, ⟨1280, 720, 0x2008, 1, 8⟩, 2, [⟨0x4300, 0x30⟩], 0, 0⟩

/-- A stopped device on the bus that answers with the identity of another
chip. -/
def other_chip_device : ov5640 :=
  ⟨some other_chip_client, ⟨1280, 720, 0x2008, 1, 8⟩, 2, [⟨0x4300, 0x30⟩], 0, 0⟩

/-- The while loop of ov5640_try_frame_size once more, now with the positions
of the frame-size table it reads: every iteration reads the width and the
height of the record the pointer fsize stands at, whatever the comparison
yields. The result is the result of the loop and the positions read, in
order; behind an undefined read of a register pointer nothing more is read. -/
def try_frame_size_loop_reads (c : catalog) (mf : v4l2_mbus_framefmt) :
    Nat → Nat → Nat → Option Nat → Option (Option Nat) × List Nat
  | 0, _, _, found => (some found, [])
  | i + 1, fsize, min_err, found =>
    let err := frame_err (c.ov5640_framesizes fsize) mf
    let rest :=
      if err < min_err then
        if fsize < c.n_framesizes then
          if (reg_at (c.ov5640_framesizes fsize).regs 0).addr ≠ 0 then
            try_frame_size_loop_reads c mf i (fsize + 1) err (some fsize)
          else
            try_frame_size_loop_reads c mf i (fsize + 1) min_err found
        else (none, [])
      else
        try_frame_size_loop_reads c mf i (fsize + 1) min_err found
    (rest.1, fsize :: rest.2)

/-- The positions of the frame-size table the scan of ov5640_try_frame_size
reads for a request. -/
def try_frame_size_reads (c : catalog) (mf : v4l2_mbus_framefmt) : List Nat :=
  (try_frame_size_loop_reads c mf c.n_framesizes 2 UINT_MAX none).2

/-- A frame-size table of four entries with zero bytes behind it: entry 2 is
100x100 without a register sequence, entry 3 is 1x1 with one. -/
def fallback_catalog : catalog :=
  ⟨fun i => ([⟨640, 480, [⟨0x3808, 0x02⟩]⟩, ⟨800, 600, [⟨0x3808, 0x03⟩]⟩,
      ⟨100, 100, []⟩, ⟨1, 1, [⟨0x3808, 0x00⟩]⟩] :
        List ov5640_framesize).getD i ⟨0, 0, []⟩, 4,
    fun i => sample_formats.getD i ⟨0, []⟩, 2, by decide, by decide⟩

/-! ## Lemmas on the format lookup -/

/-- One iteration of the loop of ov5640_set_fmt. -/
theorem set_fmt_loop_step (c : catalog) (code n index : Nat) :
    set_fmt_loop c code (n + 1) index =
      if (c.ov5640_formats (u32_dec index)).code = code
      then some (u32_dec index)
      else set_fmt_loop c code n (u32_dec index) := by
  simp only [set_fmt_loop, ge_iff_le, Nat.zero_le, if_true]

/-- When some entry below the start index carries the code, the loop of
ov5640_set_fmt breaks at such an entry. -/
theorem set_fmt_loop_found (c : catalog) (code : Nat) :
    ∀ (index n : Nat), index ≤ n → index ≤ 2 ^ 32 →
      (∃ j, j < index ∧ (c.ov5640_formats j).code = code) →
      ∃ j, j < index ∧ (c.ov5640_formats j).code = code ∧
        set_fmt_loop c code n index = some j := by
  intro index
  induction index with
  | zero =>
    intro n _ _ h
    obtain ⟨j, hj, _⟩ := h
    omega
  | succ k ih =>
    intro n hn _ h
    obtain ⟨m, rfl⟩ : ∃ m, n = m + 1 := ⟨n - 1, by omega⟩
    have hdec : u32_dec (k + 1) = k := by simp [u32_dec]
    by_cases hm : (c.ov5640_formats k).code = code
    · exact ⟨k, by omega, hm, by rw [set_fmt_loop_step, hdec, if_pos hm]⟩
    · obtain ⟨j, hj, hjc⟩ := h
      have hjk : j < k := by
        rcases Nat.lt_or_ge j k with h1 | h1
        · exact h1
        · have hjeq : j = k := by omega
          subst hjeq
          exact absurd hjc hm
      obtain ⟨i, hi, hc, hl⟩ := ih m (by omega) (by omega) ⟨j, hjk, hjc⟩
      exact ⟨i, by omega, hc, by rw [set_fmt_loop_step, hdec, if_neg hm, hl]⟩

/-- When no record the index can reach carries the code, the loop of
ov5640_set_fmt never breaks. -/
theorem set_fmt_loop_none (c : catalog) (code : Nat)
    (h : ∀ i, (c.ov5640_formats i).code ≠ code) :
    ∀ (n index : Nat), set_fmt_loop c code n index = none := by
  intro n
  induction n with
  | zero => intro index; rfl
  | succ m ih =>
    intro index
    rw [set_fmt_loop_step, if_neg (h _), ih]

/-- What ov5640_try_frame_size hands back when its loop ends with a match. -/
theorem try_frame_size_of_some (c : catalog) (mf : v4l2_mbus_framefmt) (k : Nat)
    (h : try_frame_size_loop c mf c.n_framesizes 2 UINT_MAX none = some (some k)) :
    ov5640_try_frame_size c mf =
      some (⟨(c.ov5640_framesizes k).width, (c.ov5640_framesizes k).height, mf.code, mf.field,
        mf.colorspace⟩, k) := by
  unfold ov5640_try_frame_size
  simp only [h]

/-- What ov5640_try_frame_size hands back when its loop ends without a match:
entry 2. -/
theorem try_frame_size_of_none (c : catalog) (mf : v4l2_mbus_framefmt)
    (h : try_frame_size_loop c mf c.n_framesizes 2 UINT_MAX none = some none) :
    ov5640_try_frame_size c mf =
      some (⟨(c.ov5640_framesizes 2).width, (c.ov5640_framesizes 2).height, mf.code, mf.field,
        mf.colorspace⟩, 2) := by
  unfold ov5640_try_frame_size
  simp only [h]

/-- When the loop of ov5640_try_frame_size has no result, the function has
none. -/
theorem try_frame_size_of_fault (c : catalog) (mf : v4l2_mbus_framefmt)
    (h : try_frame_size_loop c mf c.n_framesizes 2 UINT_MAX none = none) :
    ov5640_try_frame_size c mf = none := by
  unfold ov5640_try_frame_size
  simp only [h]

/-- A result of ov5640_try_frame_size comes from a loop that ended with a
match or without one. -/
theorem try_frame_size_cases (c : catalog) (mf : v4l2_mbus_framefmt)
    (r : v4l2_mbus_framefmt × Nat) (h : ov5640_try_frame_size c mf = some r) :
    (∃ k, try_frame_size_loop c mf c.n_framesizes 2 UINT_MAX none = some (some k) ∧
      r = (⟨(c.ov5640_framesizes k).width, (c.ov5640_framesizes k).height, mf.code, mf.field,
        mf.colorspace⟩, k)) ∨
    (try_frame_size_loop c mf c.n_framesizes 2 UINT_MAX none = some none ∧
      r = (⟨(c.ov5640_framesizes 2).width, (c.ov5640_framesizes 2).height, mf.code, mf.field,
        mf.colorspace⟩, 2)) := by
  cases hl : try_frame_size_loop c mf c.n_framesizes 2 UINT_MAX none with
  | none =>
    rw [try_frame_size_of_fault c mf hl] at h
    cases h
  | some found =>
    cases found with
    | none =>
      rw [try_frame_size_of_none c mf hl] at h
      exact Or.inr ⟨rfl, (Option.some.inj h).symm⟩
    | some k =>
      rw [try_frame_size_of_some c mf k hl] at h
      exact Or.inl ⟨k, rfl, (Option.some.inj h).symm⟩

/-- The request keeps its code through ov5640_try_frame_size. -/
theorem try_frame_size_code (c : catalog) (mf : v4l2_mbus_framefmt)
    (r : v4l2_mbus_framefmt × Nat) (h : ov5640_try_frame_size c mf = some r) :
    r.1.code = mf.code := by
  rcases try_frame_size_cases c mf r h with ⟨k, _, hr⟩ | ⟨_, hr⟩
  · rw [hr]
  · rw [hr]

/-- The loop of ov5640_try_frame_size only ever hands back the match it
started with or an entry of the table at or behind the one the pointer started
at. -/
theorem try_frame_size_loop_ge (c : catalog) (mf : v4l2_mbus_framefmt) (lo : Nat) :
    ∀ (i fsize min_err : Nat) (found : Option Nat), lo ≤ fsize →
      (∀ k, found = some k → lo ≤ k ∧ k < c.n_framesizes) →
      ∀ k, try_frame_size_loop c mf i fsize min_err found = some (some k) →
        lo ≤ k ∧ k < c.n_framesizes := by
  intro i
  induction i with
  | zero =>
    intro fsize min_err found _ hf k hk
    rw [try_frame_size_loop] at hk
    exact hf k (Option.some.inj hk)
  | succ n ih =>
    intro fsize min_err found hlo hf k hk
    rw [try_frame_size_loop] at hk
    split at hk
    · split at hk
      · rename_i hN
        split at hk
        · exact ih (fsize + 1) _ (some fsize) (by omega)
            (fun k1 h1 => by cases h1; exact ⟨hlo, hN⟩) k hk
        · exact ih (fsize + 1) _ found (by omega) hf k hk
      · cases hk
    · exact ih (fsize + 1) _ found (by omega) hf k hk

/-- The descriptor ov5640_try_frame_size hands back is never entry 0 or entry 1
of the frame-size table: it is an entry of the table from entry 2 on, or the
record at position 2. -/
theorem try_frame_size_index_ge_two (c : catalog) (mf : v4l2_mbus_framefmt)
    (r : v4l2_mbus_framefmt × Nat) (h : ov5640_try_frame_size c mf = some r) :
    2 ≤ r.2 ∧ (r.2 < c.n_framesizes ∨ r.2 = 2) := by
  rcases try_frame_size_cases c mf r h with ⟨k, hk, hr⟩ | ⟨_, hr⟩
  · have := try_frame_size_loop_ge c mf 2 _ 2 _ none (le_refl 2) (fun _ h => by cases h) k hk
    rw [hr]
    exact ⟨this.1, Or.inl this.2⟩
  · rw [hr]
    exact ⟨le_refl 2, Or.inr rfl⟩

/-- The return statement behind the test index < 0 of ov5640_set_fmt is never
reached: no call returns the invalid-argument error. -/
theorem set_fmt_not_einval (c : catalog) (d : ov5640) (mf : v4l2_mbus_framefmt)
    (r : Int × v4l2_mbus_framefmt × ov5640) (h : ov5640_set_fmt c d mf = some r) :
    r.1 ≠ - EINVAL := by
  unfold ov5640_set_fmt at h
  cases hts : ov5640_try_frame_size c mf with
  | none =>
    simp only [hts] at h
    cases h
  | some ts =>
    simp only [hts] at h
    cases hl : set_fmt_loop c ts.1.code index_period (c.n_formats % 2 ^ 32) with
    | none =>
      simp only [hl] at h
      cases h
    | some index =>
      simp only [hl, Nat.not_lt_zero, if_false] at h
      split at h
      · rw [← Option.some.inj h]
        simp [EBUSY, EINVAL]
      · split at h
        · rw [← Option.some.inj h]
          simp [EINVAL]
        · cases h

/-- When no record the index can reach carries the requested code, neither in
the format table nor around it, ov5640_set_fmt never returns. -/
theorem set_fmt_code_nowhere (c : catalog) (d : ov5640) (mf : v4l2_mbus_framefmt)
    (h : ∀ i, (c.ov5640_formats i).code ≠ mf.code) :
    ov5640_set_fmt c d mf = none := by
  unfold ov5640_set_fmt
  dsimp only
  cases hts : ov5640_try_frame_size c mf with
  | none => rfl
  | some ts =>
    have hl := set_fmt_loop_none c ts.1.code
      (by rw [try_frame_size_code c mf ts hts]; exact h) index_period (c.n_formats % 2 ^ 32)
    simp only [hl]

/-- When the frame-size lookup has no result, ov5640_set_fmt has none. -/
theorem set_fmt_of_lookup_fault (c : catalog) (d : ov5640) (mf : v4l2_mbus_framefmt)
    (h : ov5640_try_frame_size c mf = none) : ov5640_set_fmt c d mf = none := by
  unfold ov5640_set_fmt
  simp only [h]

/-- While the streaming flag is set, a call of ov5640_set_fmt with a code of
the format catalog whose frame-size lookup returns gives the busy error and
hands the device back as it was: committed format, frame-size descriptor,
format register table and the bus log are unchanged. -/
theorem set_fmt_busy_when_lookup_returns (c : catalog) (d : ov5640) (mf : v4l2_mbus_framefmt)
    (r : v4l2_mbus_framefmt × Nat)
    (hs : d.streaming ≠ 0)
    (hc : ∃ j, j < c.n_formats ∧ (c.ov5640_formats j).code = mf.code)
    (ht : ov5640_try_frame_size c mf = some r) :
    ∃ mf1, ov5640_set_fmt c d mf = some (- EBUSY, mf1, d) := by
  have hfit := c.formats_fit
  have hper : index_period = 2 ^ 32 := rfl
  have hcode := try_frame_size_code c mf r ht
  obtain ⟨j, _, _, hl⟩ := set_fmt_loop_found c mf.code c.n_formats index_period
    (by omega) (by omega) hc
  refine ⟨⟨r.1.width, r.1.height,
    (c.ov5640_formats j).code, V4L2_FIELD_NONE, V4L2_COLORSPACE_SRGB⟩, ?_⟩
  unfold ov5640_set_fmt
  simp only [ht, hcode, Nat.mod_eq_of_lt hfit, hl]
  simp [hs]

/-! ## Theorems -/

/-- C1: on the sample tables, whose frame-size table has three entries, a
streaming device gets the request 1x1 with the first code of the format
catalog. The scan of the frame-size lookup takes entry 2 at the distance 1998
and then stands at position 3, behind the table, with the distance 2: it
reads through the register pointer of that record, so the lookup has no
result and ov5640_set_fmt does not come to the test of the streaming flag: no
busy error is returned. -/
theorem set_fmt_scan_leaves_table_while_streaming :
    sample_streaming_device.streaming ≠ 0 ∧
    (∃ j, j < sample_catalog.n_formats ∧ (sample_catalog.ov5640_formats j).code = 0x2008) ∧
    sample_catalog.n_framesizes = 3 ∧
    frame_err (sample_catalog.ov5640_framesizes 2) ⟨1, 1, 0x2008, 0, 0⟩ = 1998 ∧
    frame_err (sample_catalog.ov5640_framesizes 3) ⟨1, 1, 0x2008, 0, 0⟩ = 2 ∧
    ov5640_try_frame_size sample_catalog ⟨1, 1, 0x2008, 0, 0⟩ = none ∧
    ov5640_set_fmt sample_catalog sample_streaming_device ⟨1, 1, 0x2008, 0, 0⟩ = none :=
  ⟨by decide, ⟨0, by decide, by decide⟩, by decide, by decide, by decide, by decide,
    set_fmt_of_lookup_fault sample_catalog sample_streaming_device ⟨1, 1, 0x2008, 0, 0⟩
      (by decide)⟩

/-- C2: on the sample tables a request with the code 0x3001, which no entry of
the format catalog carries, does not come back with the invalid-argument
error: the unsigned index wraps behind entry 0, the loop leaves the catalog
and, the memory around it holding no such code either, never ends. -/
theorem set_fmt_unknown_code_no_einval :
    ov5640_set_fmt sample_catalog sample_device ⟨640, 480, 0x3001, 0, 0⟩ = none :=
  set_fmt_code_nowhere sample_catalog sample_device ⟨640, 480, 0x3001, 0, 0⟩
    (fun i => by
      match i with
      | 0 => decide
      | 1 => decide
      | k + 2 => simp [sample_catalog, sample_formats])

/-! ## Lemmas on the register writes -/

/-- A bus handle accepts writes when every three-byte send is acknowledged in
full. -/
theorem write_accepted (cl : i2c_client)
    (h : ∀ k data, data.length = 3 → 3 ≤ cl.send k data) (reg val : Nat) :
    ov5640_write (some cl) reg val =
      (0, some ⟨cl.send, cl.recv,
        cl.xfers ++ [i2c_xfer.master_send (write_bytes reg val)]⟩) := by
  have h3 := h cl.xfers.length (write_bytes reg val) rfl
  unfold ov5640_write
  simp only [write_bytes] at h3 ⊢
  rw [if_neg (by omega)]

/-- On a bus that accepts writes the loop of ov5640_write_array writes the
whole sequence of the table and ends with 0. -/
theorem write_array_from_accepted (regs : List sensor_register) :
    ∀ (cl : i2c_client), (∀ k data, data.length = 3 → 3 ≤ cl.send k data) →
      write_array_from regs 0 (some cl) =
        (0, some ⟨cl.send, cl.recv, cl.xfers ++ sequence_xfers regs⟩) := by
  induction regs with
  | nil =>
    intro cl _
    simp [write_array_from, sequence_xfers, sequence_of]
  | cons r rest ih =>
    intro cl h
    by_cases hr : r.addr = 0
    · simp [write_array_from, sequence_xfers, sequence_of, hr]
    · rw [write_array_from, if_pos ⟨rfl, hr⟩]
      simp only [write_accepted cl h]
      rw [ih ⟨cl.send, cl.recv,
        cl.xfers ++ [i2c_xfer.master_send (write_bytes r.addr r.value)]⟩ h]
      simp [sequence_xfers, sequence_of, hr]

/-- On a bus that accepts writes ov5640_write_array writes the whole sequence
of the table, in order, and returns 0. -/
theorem write_array_accepted (regs : List sensor_register) (cl : i2c_client)
    (h : ∀ k data, data.length = 3 → 3 ≤ cl.send k data) :
    ov5640_write_array (some cl) regs =
      (0, some ⟨cl.send, cl.recv, cl.xfers ++ sequence_xfers regs⟩) :=
  write_array_from_accepted regs cl h

/-- C3, as stated, fails on a bus that acknowledges nothing: each of the two
tables is given up after its first write, so the writes issued are one record
of the frame-size sequence and one of the format sequence, not the two
sequences. The request 640x480 lies at the distance 880 from entry 2 and at
1120 from the two records behind the table, whose register pointers are
therefore not read. -/
theorem set_fmt_writes_cut_short :
    (ov5640_set_fmt sample_catalog sample_dead_device ⟨640, 480, 0x1008, 0, 0⟩).map
        (fun r => (r.1, log_of r.2.2.client))
      = some (0, some [i2c_xfer.master_send [0x38, 0x08, 0x05],
          i2c_xfer.master_send [0x43, 0x00, 0x61]]) ∧
    [i2c_xfer.master_send [0x38, 0x08, 0x05], i2c_xfer.master_send [0x43, 0x00, 0x61]]
      ≠ sequence_xfers (sample_catalog.ov5640_framesizes 2).regs
          ++ sequence_xfers (sample_catalog.ov5640_formats 1).format_ctrl_regs := by
  constructor
  · decide
  · decide

/-- C3, amended: take a stopped device on a bus that accepts every register
write, a frame-size table of at least three entries, and a request whose code
is in the format catalog and whose frame-size lookup returns the descriptor
r.2. Then ov5640_set_fmt returns 0; the committed format has the width and
height of that descriptor, the requested code, sRGB and field order none; the
selected descriptor is r.2 and the selected format table that of a catalog
entry with the code; and the writes issued are the whole frame-size sequence
followed by the whole format sequence, in that order. -/
theorem set_fmt_commit (c : catalog) (d : ov5640) (mf : v4l2_mbus_framefmt)
    (cl : i2c_client) (r : v4l2_mbus_framefmt × Nat)
    (hs : d.streaming = 0)
    (hcl : d.client = some cl)
    (hok : ∀ k data, data.length = 3 → 3 ≤ cl.send k data)
    (hN : 2 < c.n_framesizes)
    (hc : ∃ j, j < c.n_formats ∧ (c.ov5640_formats j).code = mf.code)
    (ht : ov5640_try_frame_size c mf = some r) :
    ∃ j fmt,
      j < c.n_formats ∧ (c.ov5640_formats j).code = mf.code ∧
      fmt = (⟨(c.ov5640_framesizes r.2).width, (c.ov5640_framesizes r.2).height, mf.code,
        V4L2_FIELD_NONE, V4L2_COLORSPACE_SRGB⟩ : v4l2_mbus_framefmt) ∧
      ov5640_set_fmt c d mf = some (0, fmt,
        ⟨some ⟨cl.send, cl.recv,
          cl.xfers ++ sequence_xfers (c.ov5640_framesizes r.2).regs
            ++ sequence_xfers (c.ov5640_formats j).format_ctrl_regs⟩,
          fmt, r.2, (c.ov5640_formats j).format_ctrl_regs, 0, d.frame_rate⟩) := by
  have hfit := c.formats_fit
  have hper : index_period = 2 ^ 32 := rfl
  have hcode := try_frame_size_code c mf r ht
  have hidx : r.2 < c.n_framesizes := by
    rcases (try_frame_size_index_ge_two c mf r ht).2 with h | h
    · exact h
    · omega
  have hdims : r.1.width = (c.ov5640_framesizes r.2).width ∧
      r.1.height = (c.ov5640_framesizes r.2).height := by
    rcases try_frame_size_cases c mf r ht with ⟨k, _, hr⟩ | ⟨_, hr⟩
    · rw [hr]
      exact ⟨rfl, rfl⟩
    · rw [hr]
      exact ⟨rfl, rfl⟩
  obtain ⟨j, hj, hjc, hl⟩ := set_fmt_loop_found c mf.code c.n_formats index_period
    (by omega) (by omega) hc
  refine ⟨j, _, hj, hjc, rfl, ?_⟩
  unfold ov5640_set_fmt
  simp only [ht, hcode, Nat.mod_eq_of_lt hfit, hl]
  simp only [Nat.not_lt_zero, if_false, hs, ne_eq, not_true_eq_false, hidx, hj, and_self,
    if_true, hcl]
  rw [write_array_accepted _ cl hok]
  simp only []
  rw [write_array_accepted _ ⟨cl.send, cl.recv, cl.xfers ++
    sequence_xfers (c.ov5640_framesizes r.2).regs⟩ hok]
  simp only [hdims.1, hdims.2, hjc]

/-- Witness for C3 amended: the stopped sample device, whose bus accepts every
write, and the request 640x480 with the second code of the sample catalog. -/
theorem set_fmt_commit_witness :
    ov5640_try_frame_size sample_catalog ⟨640, 480, 0x1008, 0, 0⟩
      = some (⟨1280, 720, 0x1008, 0, 0⟩, 2) ∧
    ∃ j fmt,
      j < sample_catalog.n_formats ∧
      (sample_catalog.ov5640_formats j).code = 0x1008 ∧
      fmt = (⟨1280, 720, 0x1008, V4L2_FIELD_NONE, V4L2_COLORSPACE_SRGB⟩ : v4l2_mbus_framefmt) ∧
      ov5640_set_fmt sample_catalog sample_device ⟨640, 480, 0x1008, 0, 0⟩ = some (0, fmt,
        ⟨some ⟨sample_client.send, sample_client.recv,
          sample_client.xfers ++ sequence_xfers (sample_catalog.ov5640_framesizes 2).regs
            ++ sequence_xfers (sample_catalog.ov5640_formats j).format_ctrl_regs⟩,
          fmt, 2, (sample_catalog.ov5640_formats j).format_ctrl_regs, 0,
          sample_device.frame_rate⟩) :=
  ⟨by decide,
    set_fmt_commit sample_catalog sample_device ⟨640, 480, 0x1008, 0, 0⟩ sample_client
      (⟨1280, 720, 0x1008, 0, 0⟩, 2) rfl rfl
      (fun k data h => by
        show (3 : Int) ≤ ((data.length : Nat) : Int)
        rw [h]
        decide)
      (by decide) ⟨1, by decide, by decide⟩ (by decide)⟩

/-! ## Theorems on the frame-size scan -/

/-- C4: entry 0 of the sample frame-size table is 640x480 and has a register
sequence, yet a request of exactly 640x480 comes back as 1280x720 with
descriptor 2: the scan starts at entry 2 and never looks at entries 0 and 1.
The two records behind the table lie at the distance 1120, not below the 880
of entry 2, so their register pointers are not read. -/
theorem try_frame_size_exact_request_missed :
    (sample_catalog.ov5640_framesizes 0).width = 640 ∧
    (sample_catalog.ov5640_framesizes 0).height = 480 ∧
    (reg_at (sample_catalog.ov5640_framesizes 0).regs 0).addr ≠ 0 ∧
    ov5640_try_frame_size sample_catalog ⟨640, 480, 0x2008, 0, 0⟩
      = some (⟨1280, 720, 0x2008, 0, 0⟩, 2) ∧
    frame_err (sample_catalog.ov5640_framesizes 2) ⟨640, 480, 0x2008, 0, 0⟩ = 880 ∧
    frame_err (sample_catalog.ov5640_framesizes 3) ⟨640, 480, 0x2008, 0, 0⟩ = 1120 ∧
    frame_err (sample_catalog.ov5640_framesizes 4) ⟨640, 480, 0x2008, 0, 0⟩ = 1120 := by
  decide

/-- C5: for the request 700x500 on the sample frame-size table, entry 0 has a
register sequence and lies at distance 80, yet the descriptor handed back is
entry 2 at distance 800: the result is not the nearest entry. The two records
behind the table lie at the distance 1200 and their register pointers are not
read. For the request 1x1, where entry 0 lies at distance 1118 and entry 2 at
1998, the scan reads through the register pointer of the record at position 3
and the lookup hands back nothing at all. -/
theorem try_frame_size_not_nearest :
    (reg_at (sample_catalog.ov5640_framesizes 0).regs 0).addr ≠ 0 ∧
    frame_err (sample_catalog.ov5640_framesizes 0) ⟨700, 500, 0x2008, 0, 0⟩ = 80 ∧
    ov5640_try_frame_size sample_catalog ⟨700, 500, 0x2008, 0, 0⟩
      = some (⟨1280, 720, 0x2008, 0, 0⟩, 2) ∧
    frame_err (sample_catalog.ov5640_framesizes 2) ⟨700, 500, 0x2008, 0, 0⟩ = 800 ∧
    frame_err (sample_catalog.ov5640_framesizes 3) ⟨700, 500, 0x2008, 0, 0⟩ = 1200 ∧
    frame_err (sample_catalog.ov5640_framesizes 4) ⟨700, 500, 0x2008, 0, 0⟩ = 1200 ∧
    frame_err (sample_catalog.ov5640_framesizes 0) ⟨1, 1, 0x2008, 0, 0⟩ = 1118 ∧
    frame_err (sample_catalog.ov5640_framesizes 2) ⟨1, 1, 0x2008, 0, 0⟩ = 1998 ∧
    ov5640_try_frame_size sample_catalog ⟨1, 1, 0x2008, 0, 0⟩ = none := by
  decide

/-! ## Theorems on the streaming switch and the controls -/

/-- The log after ov5640_write: on a present handle exactly one transfer is
appended, the send of the three bytes; a NULL handle has no log. -/
theorem write_log (client : Option i2c_client) (reg val : Nat) :
    log_of (ov5640_write client reg val).2 =
      (log_of client).map (fun l => l ++ [i2c_xfer.master_send (write_bytes reg val)]) := by
  cases client with
  | none => rfl
  | some cl =>
    unfold ov5640_write
    by_cases h : cl.send cl.xfers.length
        [(reg % 2 ^ 16) >>> 8, (reg % 2 ^ 16) &&& 0xff, val % 2 ^ 8] < 3
    · simp only [if_pos h]
      rfl
    · simp only [if_neg h]
      rfl

/-- C6: ov5640_start_stop_stream stores the flag (on != 0), calls ov5640_write
once, on register 0x3007 with 0xff to start and 0x00 to stop, and returns the
result of that write; the flag is stored whatever the write returns. Two
starts in a row leave the flag at 1 and send the enable write twice. -/
theorem start_stop_stream_effect (d : ov5640) (on_ : Int) :
    ov5640_start_stop_stream d on_ =
      ((ov5640_write d.client 0x3007 (if on_ ≠ 0 then 0xff else 0x00)).1,
        ⟨(ov5640_write d.client 0x3007 (if on_ ≠ 0 then 0xff else 0x00)).2, d.format,
          d.frame_size, d.format_ctrl_regs, if on_ ≠ 0 then 1 else 0, d.frame_rate⟩) ∧
    log_of (ov5640_start_stop_stream d on_).2.client =
      (log_of d.client).map (fun l => l ++
        [i2c_xfer.master_send [0x30, 0x07, if on_ ≠ 0 then 0xff else 0x00]]) ∧
    (ov5640_start_stop_stream d 1).2.streaming = 1 ∧
    (ov5640_start_stop_stream (ov5640_start_stop_stream d 1).2 1).2.streaming = 1 ∧
    log_of (ov5640_start_stop_stream (ov5640_start_stop_stream d 1).2 1).2.client =
      (log_of d.client).map (fun l => l ++
        [i2c_xfer.master_send [0x30, 0x07, 0xff], i2c_xfer.master_send [0x30, 0x07, 0xff]]) := by
  have h1 : ∀ (e : ov5640) (v : Int), ov5640_start_stop_stream e v =
      ((ov5640_write e.client 0x3007 (if v ≠ 0 then 0xff else 0x00)).1,
        ⟨(ov5640_write e.client 0x3007 (if v ≠ 0 then 0xff else 0x00)).2, e.format,
          e.frame_size, e.format_ctrl_regs, if v ≠ 0 then 1 else 0, e.frame_rate⟩) := by
    intro e v
    unfold ov5640_start_stop_stream
    by_cases hv : v = 0
    · simp [hv]
    · simp [hv]
  have hb1 : write_bytes 0x3007 0xff = [0x30, 0x07, 0xff] := by decide
  have hb0 : write_bytes 0x3007 0x00 = [0x30, 0x07, 0x00] := by decide
  refine ⟨h1 d on_, ?_, ?_, ?_, ?_⟩
  · rw [h1]
    simp only [write_log]
    by_cases hv : on_ = 0
    · simp [hv, hb0]
    · simp [hv, hb1]
  · rw [h1]
    simp
  · rw [h1, h1]
    simp
  · rw [h1, h1]
    simp only [write_log]
    cases d.client with
    | none => rfl
    | some cl => simp [log_of, hb1]

/-- C7: a brightness request with a value v from 0 to 8 applies the table
module_brightness_v_regs with one call of ov5640_write_array and returns 0;
any other value returns the invalid-argument error and leaves the device,
bus log included, as it was. -/
theorem s_ctrl_brightness_map (t : ctrl_tables) (d : ov5640) (v : Int) :
    ov5640_s_ctrl t d ctrl_id.V4L2_CID_BRIGHTNESS v =
      if 0 ≤ v ∧ v ≤ 8 then
        (0, with_client d (ov5640_write_array d.client (module_brightness_regs t v.toNat)).2)
      else (- EINVAL, d) := by
  by_cases h : 0 ≤ v ∧ v ≤ 8
  · rw [if_pos h]
    obtain ⟨h0, h8⟩ := h
    interval_cases v <;> rfl
  · rw [if_neg h]
    have hd : s_ctrl_brightness t d.client v = (- EINVAL, d.client) := by
      unfold s_ctrl_brightness
      split <;> first | rfl | (exfalso; apply h; decide)
    simp only [ov5640_s_ctrl, hd]

/-- C8: a contrast request with a value v from -3 to 3 applies the table
module_contrast_(v+3)_regs with one call of ov5640_write_array and returns 0,
the seven values going to the seven tables 0 to 6 in order; any other value
returns the invalid-argument error and leaves the device, bus log included, as
it was. -/
theorem s_ctrl_contrast_map (t : ctrl_tables) (d : ov5640) (v : Int) :
    (ov5640_s_ctrl t d ctrl_id.V4L2_CID_CONTRAST v =
      if -3 ≤ v ∧ v ≤ 3 then
        (0, with_client d (ov5640_write_array d.client (module_contrast_regs t (v + 3).toNat)).2)
      else (- EINVAL, d)) ∧
    ([-3, -2, -1, 0, 1, 2, 3] : List Int).map (fun w => (w + 3).toNat) = [0, 1, 2, 3, 4, 5, 6] ∧
    module_contrast_regs t 6 = t.module_contrast_6_regs ∧
    module_contrast_regs t 0 = t.module_contrast_0_regs := by
  refine ⟨?_, by decide, rfl, rfl⟩
  by_cases h : -3 ≤ v ∧ v ≤ 3
  · rw [if_pos h]
    obtain ⟨h0, h8⟩ := h
    interval_cases v <;> rfl
  · rw [if_neg h]
    have hd : s_ctrl_contrast t d.client v = (- EINVAL, d.client) := by
      unfold s_ctrl_contrast
      split <;> first | rfl | (exfalso; apply h; decide)
    simp only [ov5640_s_ctrl, hd]

/-- C9: an exposure request with a value v from -4 to 4 applies the one
exposure table for v with one call of ov5640_write_array and returns 0; any
other value, 10 for one, returns 0 as well and leaves the device, bus log
included, as it was. -/
theorem s_ctrl_exposure_map (t : ctrl_tables) (d : ov5640) (v : Int) :
    (ov5640_s_ctrl t d ctrl_id.V4L2_CID_EXPOSURE v =
      if -4 ≤ v ∧ v ≤ 4 then
        (0, with_client d (ov5640_write_array d.client (module_exp_comp_regs t (v + 4).toNat)).2)
      else (0, d)) ∧
    ov5640_s_ctrl t d ctrl_id.V4L2_CID_EXPOSURE 10 = (0, d) ∧
    module_exp_comp_regs t 0 = t.module_exp_comp_neg4_regs ∧
    module_exp_comp_regs t 4 = t.module_exp_comp_zero_regs ∧
    module_exp_comp_regs t 8 = t.module_exp_comp_pos4_regs := by
  refine ⟨?_, rfl, rfl, rfl, rfl⟩
  by_cases h : -4 ≤ v ∧ v ≤ 4
  · rw [if_pos h]
    obtain ⟨h0, h8⟩ := h
    interval_cases v <;> rfl
  · rw [if_neg h]
    have hd : s_ctrl_exposure t d.client v = (0, d.client) := by
      unfold s_ctrl_exposure
      split <;> first | rfl | (exfalso; apply h; decide)
    simp only [ov5640_s_ctrl, hd]

/-- C10: a scene-mode request calls ov5640_write once, on register 0x3a00 with
0x3c for night and 0x38 for sunset, and returns 0; any other value returns the
range error, which is not the invalid-argument error, and leaves the device,
bus log included, as it was. On a present handle the one write is one transfer
of the three bytes. -/
theorem s_ctrl_scene_mode_map (t : ctrl_tables) (d : ov5640) (v : Int) :
    (ov5640_s_ctrl t d ctrl_id.V4L2_CID_SCENE_MODE_ZGB v =
      if v = V4L2_SCENE_MODE_NIGHT then
        (0, with_client d (ov5640_write d.client 0x3a00 0x3c).2)
      else if v = V4L2_SCENE_MODE_SUNSET then
        (0, with_client d (ov5640_write d.client 0x3a00 0x38).2)
      else (- ERANGE, d)) ∧
    - ERANGE ≠ - EINVAL ∧
    V4L2_SCENE_MODE_NIGHT ≠ V4L2_SCENE_MODE_SUNSET ∧
    log_of (ov5640_write d.client 0x3a00 0x3c).2 =
      (log_of d.client).map (fun l => l ++ [i2c_xfer.master_send [0x3a, 0x00, 0x3c]]) ∧
    log_of (ov5640_write d.client 0x3a00 0x38).2 =
      (log_of d.client).map (fun l => l ++ [i2c_xfer.master_send [0x3a, 0x00, 0x38]]) := by
  have hb1 : write_bytes 0x3a00 0x3c = [0x3a, 0x00, 0x3c] := by decide
  have hb2 : write_bytes 0x3a00 0x38 = [0x3a, 0x00, 0x38] := by decide
  refine ⟨?_, by decide, by decide, ?_, ?_⟩
  · simp only [ov5640_s_ctrl, s_ctrl_scene_mode]
    by_cases h1 : v = V4L2_SCENE_MODE_NIGHT
    · simp only [if_pos h1]
      rfl
    · simp only [if_neg h1]
      by_cases h2 : v = V4L2_SCENE_MODE_SUNSET
      · simp only [if_pos h2]
        rfl
      · simp only [if_neg h2]
  · rw [write_log, hb1]
  · rw [write_log, hb2]

/-! ## Lemmas on the register reads and on the lifecycle -/

/-- A register read that returns 0 has performed exactly two transfers: the
send of the two address bytes and the receive of one byte. -/
theorem read_ok_log (client c1 : Option i2c_client) (reg v b : Nat)
    (h : ov5640_read client reg v = (0, b, c1)) :
    log_of c1 = (log_of client).map
      (fun l => l ++ [i2c_xfer.master_send (read_bytes reg), i2c_xfer.master_recv 1]) := by
  cases client with
  | none =>
    simp [ov5640_read, EIO] at h
  | some cl =>
    unfold ov5640_read at h
    simp only at h
    split at h
    · split at h
      · rename_i h3 h4
        have h5 := congrArg Prod.fst h
        simp only at h5
        omega
      · have h5 := congrArg Prod.fst h
        simp [ EIO] at h5
    · split at h
      · split at h
        · rename_i h3 h4
          have h5 := congrArg Prod.fst h
          simp only at h5
          omega
        · have h5 := congrArg Prod.fst h
          simp [ EIO] at h5
      · have h5 := congrArg (fun p => p.2.2) h
        simp only at h5
        rw [← h5]
        simp [log_of, read_bytes]

/-- Behind a successful power-on and two successful identity reads ov5640_init
depends on the identity alone: no such device for a foreign identity, else the
four write steps, all of them issued, with the result of the default table
returned. -/
theorem init_after_reads (k : init_tables) (power_on : Int) (d : ov5640) (id_high id_low : Nat)
    (c1 c2 : Option i2c_client) (hp : 0 ≤ power_on)
    (h1 : ov5640_read d.client k.REG_CHIP_ID_HIGH 0 = (0, id_high, c1))
    (h2 : ov5640_read c1 k.REG_CHIP_ID_LOW 0 = (0, id_low, c2)) :
    ov5640_init k power_on d =
      if chip_id id_high id_low ≠ k.OV5640_ID then (- ENODEV, with_client d c2)
      else
        ((ov5640_write_array (ov5640_write (ov5640_write c2 0x3103 0x11).2 0x3008 0x82).2
            k.ov5640_ini_vga).1,
          with_client d (ov5640_write (ov5640_write_array
            (ov5640_write (ov5640_write c2 0x3103 0x11).2 0x3008 0x82).2
            k.ov5640_ini_vga).2 0x3007 0x00).2) := by
  unfold ov5640_init
  simp only [h1, h2, not_lt.mpr hp, if_false, lt_irrefl, chip_id, with_client]

/-! ## Theorems on the lifecycle -/

/-- C11: when both identity bytes were read successfully and the identity
they form differs from OV5640_ID, ov5640_init returns the no-such-device error
and the bus has seen only the four transfers of the two reads, no register
write; when the identity equals OV5640_ID the check lets the call through to
the sysclk write and the value returned is the result of the default table. -/
theorem init_identity_check (k : init_tables) (power_on : Int) (d : ov5640)
    (id_high id_low : Nat) (c1 c2 : Option i2c_client) (hp : 0 ≤ power_on)
    (h1 : ov5640_read d.client k.REG_CHIP_ID_HIGH 0 = (0, id_high, c1))
    (h2 : ov5640_read c1 k.REG_CHIP_ID_LOW 0 = (0, id_low, c2)) :
    (chip_id id_high id_low ≠ k.OV5640_ID →
      ov5640_init k power_on d = (- ENODEV, with_client d c2)) ∧
    log_of c2 = (log_of d.client).map (fun l => l ++
      [i2c_xfer.master_send (read_bytes k.REG_CHIP_ID_HIGH), i2c_xfer.master_recv 1,
       i2c_xfer.master_send (read_bytes k.REG_CHIP_ID_LOW), i2c_xfer.master_recv 1]) ∧
    (chip_id id_high id_low = k.OV5640_ID →
      (ov5640_init k power_on d).1 =
        (ov5640_write_array (ov5640_write (ov5640_write c2 0x3103 0x11).2 0x3008 0x82).2
          k.ov5640_ini_vga).1) := by
  have hi := init_after_reads k power_on d id_high id_low c1 c2 hp h1 h2
  refine ⟨fun hne => ?_, ?_, fun heq => ?_⟩
  · rw [hi, if_pos hne]
  · rw [read_ok_log _ _ _ _ _ h2, read_ok_log _ _ _ _ _ h1]
    cases d.client with
    | none => rfl
    | some cl => simp [log_of]
  · rw [hi, if_neg (not_not.mpr heq)]

/-- Witness for C11: the sample bus of another chip delivers 0x26 and 0x42,
which is not the identity 0x5640. -/
theorem init_identity_check_witness :
    (0 : Int) ≤ 0 ∧
    ov5640_read other_chip_device.client sample_init_tables.REG_CHIP_ID_HIGH 0
      = (0, 0x26, (ov5640_read other_chip_device.client 0x300a 0).2.2) ∧
    ov5640_read (ov5640_read other_chip_device.client 0x300a 0).2.2
        sample_init_tables.REG_CHIP_ID_LOW 0
      = (0, 0x42, (ov5640_read (ov5640_read other_chip_device.client 0x300a 0).2.2
          0x300b 0).2.2) ∧
    chip_id 0x26 0x42 ≠ sample_init_tables.OV5640_ID ∧
    ov5640_init sample_init_tables 0 other_chip_device = (- ENODEV, with_client other_chip_device
      (ov5640_read (ov5640_read other_chip_device.client 0x300a 0).2.2 0x300b 0).2.2) :=
  ⟨le_refl 0, rfl, rfl, by decide,
    (init_identity_check sample_init_tables 0 other_chip_device 0x26 0x42
      (ov5640_read other_chip_device.client 0x300a 0).2.2
      (ov5640_read (ov5640_read other_chip_device.client 0x300a 0).2.2 0x300b 0).2.2
      (le_refl 0) rfl rfl).1 (by decide)⟩

/-- C12: on the sample bus whose first register write fails the identity check
passes and the sysclk write to 0x3103 fails with the I/O error, yet
ov5640_init goes on with the software reset, the default table and the
output-disable write, and returns 0. -/
theorem init_goes_on_after_failed_write :
    (ov5640_write (ov5640_read (ov5640_read first_write_fails_device.client 0x300a 0).2.2
      0x300b 0).2.2 0x3103 0x11).1 = - EIO ∧
    (ov5640_init sample_init_tables 0 first_write_fails_device).1 = 0 ∧
    log_of (ov5640_init sample_init_tables 0 first_write_fails_device).2.client =
      some [i2c_xfer.master_send [0x30, 0x0a], i2c_xfer.master_recv 1,
        i2c_xfer.master_send [0x30, 0x0b], i2c_xfer.master_recv 1,
        i2c_xfer.master_send [0x31, 0x03, 0x11],
        i2c_xfer.master_send [0x30, 0x08, 0x82],
        i2c_xfer.master_send [0x30, 0x17, 0x00],
        i2c_xfer.master_send [0x30, 0x18, 0x00],
        i2c_xfer.master_send [0x30, 0x07, 0x00]] := by
  decide

/-! ## Theorems on error propagation and on the write primitives -/

/-- C13: on the bus that acknowledges nothing the one write of the brightness
table for the value 3 fails with the I/O error, and so do the writes on behalf
of the format request 640x480 and of the frame-rate request 20, yet all three
requests return 0: the results of the register writes are dropped. -/
theorem requests_succeed_on_dead_bus :
    (ov5640_write sample_dead_device.client 0x5587 0x30).1 = - EIO ∧
    (ov5640_s_ctrl sample_tables sample_dead_device ctrl_id.V4L2_CID_BRIGHTNESS 3).1 = 0 ∧
    log_of (ov5640_s_ctrl sample_tables sample_dead_device ctrl_id.V4L2_CID_BRIGHTNESS 3).2.client
      = some [i2c_xfer.master_send [0x55, 0x87, 0x30]] ∧
    (ov5640_set_fmt sample_catalog sample_dead_device ⟨640, 480, 0x2008, 0, 0⟩).map
      (fun r => r.1) = some 0 ∧
    (ov5640_set_framerate sample_catalog sample_dead_device 20).1 = 0 := by
  decide

/-- The value a control request returns does not depend on the bus handle. -/
theorem s_ctrl_status_any_bus (t : ctrl_tables) (d : ov5640) (client : Option i2c_client)
    (id : ctrl_id) (v : Int) :
    (ov5640_s_ctrl t (with_client d client) id v).1 = (ov5640_s_ctrl t d id v).1 := by
  cases id
  · simp only [ov5640_s_ctrl, s_ctrl_brightness, with_client]
    split <;> rfl
  · simp only [ov5640_s_ctrl, s_ctrl_contrast, with_client]
    split <;> rfl
  · simp only [ov5640_s_ctrl, s_ctrl_scene_mode, with_client]
    split
    · rfl
    · split <;> rfl
  · simp only [ov5640_s_ctrl, s_ctrl_exposure, with_client]
    split <;> rfl
  · rfl
  · rfl
  · simp only [ov5640_s_ctrl, s_ctrl_effects, with_client]
    repeat' split
    all_goals rfl
  · rfl
  · simp only [ov5640_s_ctrl, s_ctrl_white_balance, with_client]
    repeat' split
    all_goals rfl
  · rfl

/-- The value returned by ov5640_s_ctrl, by ov5640_set_fmt and by
ov5640_set_framerate is the same on every bus: none of the three looks at the
result of a register write it issues. -/
theorem requests_drop_write_results (t : ctrl_tables) (c : catalog) (d : ov5640)
    (client : Option i2c_client) (id : ctrl_id) (v : Int) (mf : v4l2_mbus_framefmt)
    (denominator : Nat) :
    (ov5640_s_ctrl t (with_client d client) id v).1 = (ov5640_s_ctrl t d id v).1 ∧
    (ov5640_set_fmt c (with_client d client) mf).map (fun r => r.1)
      = (ov5640_set_fmt c d mf).map (fun r => r.1) ∧
    (ov5640_set_framerate c (with_client d client) denominator).1
      = (ov5640_set_framerate c d denominator).1 := by
  refine ⟨s_ctrl_status_any_bus t d client id v, ?_, ?_⟩
  · unfold ov5640_set_fmt
    cases ov5640_try_frame_size c mf with
    | none => rfl
    | some ts =>
      dsimp only
      generalize set_fmt_loop _ _ _ _ = found
      cases found with
      | none => rfl
      | some index =>
        simp only [Nat.not_lt_zero, if_false, with_client]
        split
        · rfl
        · split <;> rfl
  · unfold ov5640_set_framerate
    simp only [with_client]
    split <;> rfl

/-- Once ret is not 0 the loop of ov5640_write_array writes nothing more. -/
theorem write_array_from_failed (regs : List sensor_register) (ret : Int)
    (client : Option i2c_client) (h : ret ≠ 0) :
    write_array_from regs ret client = (ret, client) := by
  cases regs with
  | nil => rfl
  | cons r rest => simp [write_array_from, h]

/-- The loop of ov5640_write_array writes the records in front of the first
zero address in order and ends at the first failing write. -/
theorem write_array_from_in_order (regs : List sensor_register) :
    ∀ client : Option i2c_client,
      write_array_from regs 0 client = write_in_order (sequence_of regs) client := by
  induction regs with
  | nil => intro client; rfl
  | cons r rest ih =>
    intro client
    by_cases hr : r.addr = 0
    · simp [write_array_from, sequence_of, write_in_order, hr]
    · have hs : sequence_of (r :: rest) = r :: sequence_of rest := by
        simp [sequence_of, hr]
      rw [hs, write_array_from, if_pos ⟨rfl, hr⟩, write_in_order]
      by_cases hw : (ov5640_write client r.addr r.value).1 = 0
      · simp only [hw, ne_eq, not_true_eq_false, if_false]
        exact ih _
      · simp only [ne_eq, hw, not_false_eq_true, if_true]
        exact write_array_from_failed _ _ _ hw

/-- The log behind the batch write in order is the log in front of it followed
by the transfers of a front part of the sequence. -/
theorem write_in_order_log (regs : List sensor_register) :
    ∀ client : Option i2c_client, ∃ n, n ≤ regs.length ∧
      log_of (write_in_order regs client).2 = (log_of client).map (fun l => l ++
        (regs.take n).map (fun r => i2c_xfer.master_send (write_bytes r.addr r.value))) := by
  induction regs with
  | nil =>
    intro client
    refine ⟨0, le_refl 0, ?_⟩
    cases client <;> simp [write_in_order, log_of]
  | cons r rest ih =>
    intro client
    by_cases hw : (ov5640_write client r.addr r.value).1 = 0
    · obtain ⟨n, hn, hl⟩ := ih (ov5640_write client r.addr r.value).2
      refine ⟨n + 1, by simpa using hn, ?_⟩
      rw [write_in_order]
      simp only [hw, ne_eq, not_true_eq_false, if_false]
      rw [hl, write_log]
      cases client <;> simp [log_of]
    · refine ⟨1, by simp, ?_⟩
      rw [write_in_order]
      simp only [ne_eq, hw, not_false_eq_true, if_true]
      rw [write_log]
      cases client <;> simp [log_of]

/-- C14: ov5640_write_array is total and does what the batch write in order
does on the records in front of the first zero address: it writes them in
order, ends after the first failing write and returns its error, or 0 when
none fails; for a table made of records with addresses other than zero, a
record with address zero and anything behind, those records are the ones in
front; and the transfers issued are a front part of that sequence, so nothing
behind the failing record or the zero address is written. -/
theorem write_array_in_order (client : Option i2c_client) (regs : List sensor_register)
    (front back : List sensor_register) (value : Nat) :
    ov5640_write_array client regs = write_in_order (sequence_of regs) client ∧
    sequence_of (front.filter (fun r => decide (r.addr ≠ 0)) ++ ⟨0, value⟩ :: back)
      = front.filter (fun r => decide (r.addr ≠ 0)) ∧
    ∃ n, n ≤ (sequence_of regs).length ∧
      log_of (ov5640_write_array client regs).2 = (log_of client).map (fun l => l ++
        ((sequence_of regs).take n).map
          (fun r => i2c_xfer.master_send (write_bytes r.addr r.value))) := by
  have h1 : ov5640_write_array client regs = write_in_order (sequence_of regs) client :=
    write_array_from_in_order regs client
  refine ⟨h1, ?_, ?_⟩
  · unfold sequence_of
    rw [List.takeWhile_append_of_pos]
    · simp
    · intro r hr
      exact (List.mem_filter.mp hr).2
  · rw [h1]
    exact write_in_order_log (sequence_of regs) client

/-- What ov5640_write returns: the I/O error for a NULL handle and for a short
transfer, the transport's own result when that is negative, 0 when the three
bytes were sent. -/
theorem write_result (cl : i2c_client) (reg val : Nat) :
    (ov5640_write none reg val).1 = - EIO ∧
    (ov5640_write (some cl) reg val).1 =
      if 3 ≤ cl.send cl.xfers.length (write_bytes reg val) then 0
      else if cl.send cl.xfers.length (write_bytes reg val) < 0
        then cl.send cl.xfers.length (write_bytes reg val)
      else - EIO := by
  refine ⟨rfl, ?_⟩
  unfold ov5640_write write_bytes
  simp only
  split_ifs <;> first | rfl | omega

/-- C15: on the sample bus whose transport answers -6, ov5640_write sends the
three bytes and returns -6, the transport's own error, which is not the I/O
error. -/
theorem write_returns_transport_error :
    (ov5640_write (some nack_client) 0x3007 0xff).1 = -6 ∧
    (-6 : Int) ≠ - EIO ∧
    log_of (ov5640_write (some nack_client) 0x3007 0xff).2
      = some [i2c_xfer.master_send [0x30, 0x07, 0xff]] := by
  decide

/-! ## Theorems on the frame rate and on the frame-size enumeration -/

/-- C16: the denominator 256 is above 30, yet ov5640_set_framerate cuts it to
the unsigned char 0 before the comparison, stores 0, writes the two PLL
registers and returns 0. -/
theorem set_framerate_accepts_256 :
    30 < 256 ∧
    (ov5640_set_framerate sample_catalog sample_device 256).1 = 0 ∧
    (ov5640_set_framerate sample_catalog sample_device 256).2.frame_rate = 0 ∧
    log_of (ov5640_set_framerate sample_catalog sample_device 256).2.client =
      some [i2c_xfer.master_send [0x30, 0x35, 0x41], i2c_xfer.master_send [0x30, 0x36, 0x69],
        i2c_xfer.master_send [0x30, 0x35], i2c_xfer.master_recv 1] := by
  decide

/-- What ov5640_get_framerate returns: the invalid-argument error, with the
denominator untouched, when the stored rate is above 30, else 0 and the stored
rate. -/
theorem get_framerate_result (d : ov5640) (denominator : Nat) :
    ov5640_get_framerate d denominator =
      if d.frame_rate > 30 then (- EINVAL, denominator) else (0, d.frame_rate) := by
  unfold ov5640_get_framerate
  by_cases h : d.frame_rate > 30
  · simp only [if_pos h]
  · simp only [if_neg h]
    have hle : d.frame_rate ≤ 30 := by omega
    have hx : (d.frame_rate % 2 ^ 32) &&& 0x0000ffff = d.frame_rate := by
      generalize d.frame_rate = x at hle
      interval_cases x <;> decide
    rw [hx]

/-- C17: for a rate from 0 to 30 ov5640_set_framerate returns 0 and
ov5640_get_framerate behind it returns 0 with the denominator equal to the
rate; and in every device state ov5640_get_framerate returns the
invalid-argument error exactly when the stored rate is above 30, else the
stored rate. -/
theorem framerate_set_then_get (c : catalog) (d : ov5640) (fps denominator : Nat)
    (h : fps ≤ 30) :
    (ov5640_set_framerate c d fps).1 = 0 ∧
    ov5640_get_framerate (ov5640_set_framerate c d fps).2 denominator = (0, fps) ∧
    ((ov5640_get_framerate d denominator).1 = - EINVAL ↔ d.frame_rate > 30) ∧
    ov5640_get_framerate d denominator =
      if d.frame_rate > 30 then (- EINVAL, denominator) else (0, d.frame_rate) := by
  have hcut : (fps % 2 ^ 32) % 2 ^ 8 = fps := by omega
  have hset : (ov5640_set_framerate c d fps).1 = 0 ∧
      (ov5640_set_framerate c d fps).2.frame_rate = fps := by
    unfold ov5640_set_framerate
    simp only [hcut, gt_iff_lt, not_lt.mpr h, if_false, and_self]
  refine ⟨hset.1, ?_, ?_, get_framerate_result d denominator⟩
  · rw [get_framerate_result, hset.2, if_neg (by omega)]
  · rw [get_framerate_result]
    by_cases hd : d.frame_rate > 30
    · simp [hd]
    · simp [hd, EINVAL]

/-- Witness for C17: the rate 25 on the sample device. -/
theorem framerate_set_then_get_witness :
    25 ≤ 30 ∧
    (ov5640_set_framerate sample_catalog sample_device 25).1 = 0 ∧
    ov5640_get_framerate (ov5640_set_framerate sample_catalog sample_device 25).2 1 = (0, 25) :=
  ⟨by decide, (framerate_set_then_get sample_catalog sample_device 25 1 (by decide)).1,
    (framerate_set_then_get sample_catalog sample_device 25 1 (by decide)).2.1⟩

/-- The loop of ov5640_enum_frame_sizes, started at a value of i that is not 0,
ends at an index below that value: at the highest index from 1 on whose entry
carries the code, or at 0 when no such entry does. -/
theorem enum_frame_sizes_loop_spec (c : catalog) (code : Nat) :
    ∀ n : Nat, ∃ i, enum_frame_sizes_loop c code (n + 1) = some i ∧ i ≤ n ∧
      (i ≠ 0 → (c.ov5640_formats i).code = code) ∧
      (i = 0 → ∀ j, 1 ≤ j → j ≤ n → (c.ov5640_formats j).code ≠ code) := by
  intro n
  induction n with
  | zero =>
    refine ⟨0, rfl, le_refl 0, fun h => absurd rfl h, ?_⟩
    intro _ j h1 h2
    omega
  | succ m ih =>
    by_cases hm : code = (c.ov5640_formats (m + 1)).code
    · refine ⟨m + 1, ?_, le_refl _, fun _ => hm.symm, fun h => by omega⟩
      rw [enum_frame_sizes_loop, if_pos hm]
    · obtain ⟨i, hi, hle, hne, hz⟩ := ih
      refine ⟨i, ?_, by omega, hne, ?_⟩
      · rw [enum_frame_sizes_loop, if_neg hm]
        exact hi
      · intro h0 j h1 h2
        rcases Nat.lt_or_ge j (m + 1) with hlt | hge
        · exact hz h0 j h1 (by omega)
        · have hj : j = m + 1 := by omega
          rw [hj]
          exact fun h => hm h.symm

/-- C18: with a format catalog that is not empty, ov5640_enum_frame_sizes
returns the invalid-argument error exactly when the index is not below the
number of frame-size entries; otherwise it returns 0 with the width of the
entry at the index as both width bounds and its height as both height bounds,
and with the code of a format entry inside the catalog: the requested code
when the catalog holds it, the code of entry 0 otherwise. The scan ends with an
index from 0 to the catalog size less one, never in front of entry 0. -/
theorem enum_frame_sizes_spec (c : catalog) (fse : v4l2_subdev_frame_size_enum)
    (hN : 0 < c.n_formats) :
    (c.n_framesizes ≤ fse.index → ov5640_enum_frame_sizes c fse = some (- EINVAL, fse)) ∧
    (fse.index < c.n_framesizes → ∃ i, i < c.n_formats ∧
      enum_frame_sizes_loop c fse.code c.n_formats = some i ∧
      ov5640_enum_frame_sizes c fse = some (0,
        ⟨fse.index, (c.ov5640_formats i).code,
          (c.ov5640_framesizes fse.index).width, (c.ov5640_framesizes fse.index).width,
          (c.ov5640_framesizes fse.index).height, (c.ov5640_framesizes fse.index).height⟩) ∧
      ((∃ j, j < c.n_formats ∧ (c.ov5640_formats j).code = fse.code) →
        (c.ov5640_formats i).code = fse.code) ∧
      ((¬ ∃ j, j < c.n_formats ∧ (c.ov5640_formats j).code = fse.code) → i = 0)) ∧
    ((∃ r, ov5640_enum_frame_sizes c fse = some r ∧ r.1 = - EINVAL) ↔
      c.n_framesizes ≤ fse.index) := by
  obtain ⟨n, hn⟩ : ∃ n, c.n_formats = n + 1 := ⟨c.n_formats - 1, by omega⟩
  obtain ⟨i, hi, hle, hne, hz⟩ := enum_frame_sizes_loop_spec c fse.code n
  have hhigh : c.n_framesizes ≤ fse.index →
      ov5640_enum_frame_sizes c fse = some (- EINVAL, fse) := by
    intro h
    unfold ov5640_enum_frame_sizes
    rw [if_pos h]
  have hlow : fse.index < c.n_framesizes →
      ov5640_enum_frame_sizes c fse = some (0,
        ⟨fse.index, (c.ov5640_formats i).code,
          (c.ov5640_framesizes fse.index).width, (c.ov5640_framesizes fse.index).width,
          (c.ov5640_framesizes fse.index).height, (c.ov5640_framesizes fse.index).height⟩) := by
    intro h
    unfold ov5640_enum_frame_sizes
    rw [if_neg (by omega), hn, hi]
  refine ⟨hhigh, fun h => ⟨i, by omega, by rw [hn]; exact hi, hlow h, ?_, ?_⟩, ?_⟩
  · rintro ⟨j, hj, hjc⟩
    by_cases h0 : i = 0
    · rcases Nat.eq_zero_or_pos j with hj0 | hjpos
      · rw [h0, ← hj0]
        exact hjc
      · exact absurd hjc (hz h0 j hjpos (by omega))
    · exact hne h0
  · intro hno
    by_contra h0
    exact hno ⟨i, by omega, hne h0⟩
  · constructor
    · rintro ⟨r, hr, hr1⟩
      by_contra hlt
      rw [hlow (by omega)] at hr
      rw [← Option.some.inj hr] at hr1
      simp [EINVAL] at hr1
    · intro h
      exact ⟨_, hhigh h, rfl⟩

/-- Witness for C18: the sample catalog has two formats. -/
theorem enum_frame_sizes_spec_witness :
    0 < sample_catalog.n_formats ∧
    ov5640_enum_frame_sizes sample_catalog ⟨3, 0x1008, 0, 0, 0, 0⟩
      = some (- EINVAL, ⟨3, 0x1008, 0, 0, 0, 0⟩) :=
  ⟨by decide, (enum_frame_sizes_spec sample_catalog ⟨3, 0x1008, 0, 0, 0, 0⟩ (by decide)).1
    (by decide)⟩

/-! ## Theorems on ties of the frame-size scan and on mirror and flip -/

/-- The loop of ov5640_try_frame_size keeps the first of the nearest: when it
starts with a match that is the first of the nearest among the entries of the
table with a register sequence from lo up to the pointer, it ends, when it has
a result, with one that is so up to the end of the scan; and it ends without a
match only when every such entry is at the distance UINT_MAX at least. -/
theorem try_frame_size_loop_first (c : catalog) (mf : v4l2_mbus_framefmt) (lo : Nat) :
    ∀ (i f min_err : Nat) (found : Option Nat), lo ≤ f →
      (found = none → min_err = UINT_MAX) →
      (∀ k, found = some k → lo ≤ k ∧ k < f ∧ k < c.n_framesizes ∧
        (reg_at (c.ov5640_framesizes k).regs 0).addr ≠ 0 ∧
        frame_err (c.ov5640_framesizes k) mf = min_err) →
      (∀ j, lo ≤ j → j < f → j < c.n_framesizes →
        (reg_at (c.ov5640_framesizes j).regs 0).addr ≠ 0 →
        min_err ≤ frame_err (c.ov5640_framesizes j) mf ∧
        ∀ k, found = some k → frame_err (c.ov5640_framesizes j) mf = min_err → k ≤ j) →
      (∀ k, try_frame_size_loop c mf i f min_err found = some (some k) →
        lo ≤ k ∧ k < f + i ∧ k < c.n_framesizes ∧
        (reg_at (c.ov5640_framesizes k).regs 0).addr ≠ 0 ∧
        ∀ j, lo ≤ j → j < f + i → j < c.n_framesizes →
          (reg_at (c.ov5640_framesizes j).regs 0).addr ≠ 0 →
          frame_err (c.ov5640_framesizes k) mf ≤ frame_err (c.ov5640_framesizes j) mf ∧
          (frame_err (c.ov5640_framesizes j) mf = frame_err (c.ov5640_framesizes k) mf →
            k ≤ j)) ∧
      (try_frame_size_loop c mf i f min_err found = some none →
        ∀ j, lo ≤ j → j < f + i → j < c.n_framesizes →
          (reg_at (c.ov5640_framesizes j).regs 0).addr ≠ 0 →
          UINT_MAX ≤ frame_err (c.ov5640_framesizes j) mf) := by
  intro i
  induction i with
  | zero =>
    intro f min_err found _ hnone hsome hall
    simp only [try_frame_size_loop, Nat.add_zero]
    constructor
    · intro k hk
      have hk1 : found = some k := Option.some.inj hk
      obtain ⟨h1, h2, h2N, h3, h4⟩ := hsome k hk1
      refine ⟨h1, h2, h2N, h3, fun j hj1 hj2 hjN hj3 => ?_⟩
      obtain ⟨h5, h6⟩ := hall j hj1 hj2 hjN hj3
      exact ⟨by omega, fun he => h6 k hk1 (by omega)⟩
    · intro hn j hj1 hj2 hjN hj3
      have hn1 : found = none := Option.some.inj hn
      have := (hall j hj1 hj2 hjN hj3).1
      rw [hnone hn1] at this
      exact this
  | succ n ih =>
    intro f min_err found hlo hnone hsome hall
    rw [try_frame_size_loop]
    have hfi : f + (n + 1) = f + 1 + n := by omega
    rw [hfi]
    by_cases hc : frame_err (c.ov5640_framesizes f) mf < min_err
    · rw [if_pos hc]
      by_cases hN : f < c.n_framesizes
      · rw [if_pos hN]
        by_cases hq : (reg_at (c.ov5640_framesizes f).regs 0).addr ≠ 0
        · rw [if_pos hq]
          apply ih (f + 1) (frame_err (c.ov5640_framesizes f) mf) (some f) (by omega)
          · intro h
            cases h
          · intro k hk
            cases hk
            exact ⟨hlo, by omega, hN, hq, rfl⟩
          · intro j hj1 hj2 hjN hj3
            rcases Nat.lt_or_ge j f with hlt | hge
            · have h5 := (hall j hj1 hlt hjN hj3).1
              exact ⟨by omega, fun k hk he => by omega⟩
            · have hjf : j = f := by omega
              subst hjf
              exact ⟨le_refl _, fun k hk _ => by cases hk; exact le_refl _⟩
        · rw [if_neg hq]
          apply ih (f + 1) min_err found (by omega) hnone
          · intro k hk
            obtain ⟨h1, h2, h2N, h3, h4⟩ := hsome k hk
            exact ⟨h1, by omega, h2N, h3, h4⟩
          · intro j hj1 hj2 hjN hj3
            rcases Nat.lt_or_ge j f with hlt | hge
            · exact hall j hj1 hlt hjN hj3
            · have hjf : j = f := by omega
              subst hjf
              exact absurd hj3 hq
      · rw [if_neg hN]
        constructor
        · intro k hk
          cases hk
        · intro hk
          cases hk
    · rw [if_neg hc]
      apply ih (f + 1) min_err found (by omega) hnone
      · intro k hk
        obtain ⟨h1, h2, h2N, h3, h4⟩ := hsome k hk
        exact ⟨h1, by omega, h2N, h3, h4⟩
      · intro j hj1 hj2 hjN hj3
        rcases Nat.lt_or_ge j f with hlt | hge
        · exact hall j hj1 hlt hjN hj3
        · have hjf : j = f := by omega
          subst hjf
          exact ⟨by omega, fun k hk _ => by have := (hsome k hk).2.1; omega⟩

/-- The scan of ov5640_try_frame_size as a whole: a match is an entry of the
table from entry 2 on with a register sequence, the first of the nearest such
entries; there is no match only when every such entry is at the distance
UINT_MAX at least. -/
theorem try_frame_size_scan (c : catalog) (mf : v4l2_mbus_framefmt) :
    (∀ k, try_frame_size_loop c mf c.n_framesizes 2 UINT_MAX none = some (some k) →
      2 ≤ k ∧ k < c.n_framesizes ∧ (reg_at (c.ov5640_framesizes k).regs 0).addr ≠ 0 ∧
      ∀ j, 2 ≤ j → j < c.n_framesizes →
        (reg_at (c.ov5640_framesizes j).regs 0).addr ≠ 0 →
        frame_err (c.ov5640_framesizes k) mf ≤ frame_err (c.ov5640_framesizes j) mf ∧
        (frame_err (c.ov5640_framesizes j) mf = frame_err (c.ov5640_framesizes k) mf →
          k ≤ j)) ∧
    (try_frame_size_loop c mf c.n_framesizes 2 UINT_MAX none = some none →
      ∀ j, 2 ≤ j → j < c.n_framesizes →
        (reg_at (c.ov5640_framesizes j).regs 0).addr ≠ 0 →
        UINT_MAX ≤ frame_err (c.ov5640_framesizes j) mf) := by
  obtain ⟨hs, hn⟩ := try_frame_size_loop_first c mf 2 c.n_framesizes 2 UINT_MAX none
    (le_refl 2) (fun _ => rfl) (fun k hk => by cases hk)
    (fun j hj1 hj2 _ _ => by omega)
  constructor
  · intro k hk
    obtain ⟨h1, _, h3, h4, h5⟩ := hs k hk
    exact ⟨h1, h3, h4, fun j hj1 hjN hj3 => h5 j hj1 (by omega) hjN hj3⟩
  · intro hk j hj1 hjN hj3
    exact hn hk j hj1 (by omega) hjN hj3

/-- C19, as stated, fails on the sample table with a tie: for the request
200x100 the entries 2 and 3 both have a register sequence and both lie at
distance 100; entry 3 is scanned last, yet the descriptor handed back is
entry 2, the one scanned first. The two records behind the table lie at the
distance 300, so their register pointers are not read. -/
theorem try_frame_size_tie_first_scanned :
    tie_catalog.n_framesizes = 4 ∧
    (reg_at (tie_catalog.ov5640_framesizes 2).regs 0).addr ≠ 0 ∧
    (reg_at (tie_catalog.ov5640_framesizes 3).regs 0).addr ≠ 0 ∧
    frame_err (tie_catalog.ov5640_framesizes 2) ⟨200, 100, 0x2008, 0, 0⟩ = 100 ∧
    frame_err (tie_catalog.ov5640_framesizes 3) ⟨200, 100, 0x2008, 0, 0⟩ = 100 ∧
    frame_err (tie_catalog.ov5640_framesizes 4) ⟨200, 100, 0x2008, 0, 0⟩ = 300 ∧
    frame_err (tie_catalog.ov5640_framesizes 5) ⟨200, 100, 0x2008, 0, 0⟩ = 300 ∧
    ov5640_try_frame_size tie_catalog ⟨200, 100, 0x2008, 0, 0⟩
      = some (⟨100, 100, 0x2008, 0, 0⟩, 2) := by
  decide

/-- C19, amended: let ov5640_try_frame_size return the descriptor r.2, and let
j be a scanned entry of the table (from entry 2 on) with a register sequence
and a distance below UINT_MAX. Then r.2 is a scanned entry of the table with a
register sequence, no farther from the request than j, and at the same
distance only when it is scanned no later than j: among the scanned entries at
the minimum distance the one scanned first is selected. -/
theorem try_frame_size_first_of_nearest (c : catalog) (mf : v4l2_mbus_framefmt)
    (r : v4l2_mbus_framefmt × Nat) (j : Nat)
    (hr : ov5640_try_frame_size c mf = some r)
    (h2 : 2 ≤ j) (hj : j < c.n_framesizes)
    (hq : (reg_at (c.ov5640_framesizes j).regs 0).addr ≠ 0)
    (herr : frame_err (c.ov5640_framesizes j) mf < UINT_MAX) :
    2 ≤ r.2 ∧ r.2 < c.n_framesizes ∧
    (reg_at (c.ov5640_framesizes r.2).regs 0).addr ≠ 0 ∧
    frame_err (c.ov5640_framesizes r.2) mf ≤ frame_err (c.ov5640_framesizes j) mf ∧
    (frame_err (c.ov5640_framesizes j) mf = frame_err (c.ov5640_framesizes r.2) mf →
      r.2 ≤ j) := by
  obtain ⟨hs, hn⟩ := try_frame_size_scan c mf
  rcases try_frame_size_cases c mf r hr with ⟨k, hk, hrk⟩ | ⟨hnone, _⟩
  · obtain ⟨h3, h4, h5, h6⟩ := hs k hk
    rw [hrk]
    exact ⟨h3, h4, h5, (h6 j h2 hj hq).1, (h6 j h2 hj hq).2⟩
  · have := hn hnone j h2 hj hq
    omega

/-- Witness for C19 amended: entry 3 of the table with a tie. -/
theorem try_frame_size_first_of_nearest_witness :
    ov5640_try_frame_size tie_catalog ⟨200, 100, 0x2008, 0, 0⟩
      = some (⟨100, 100, 0x2008, 0, 0⟩, 2) ∧
    2 ≤ 3 ∧ 3 < tie_catalog.n_framesizes ∧
    (reg_at (tie_catalog.ov5640_framesizes 3).regs 0).addr ≠ 0 ∧
    frame_err (tie_catalog.ov5640_framesizes 3) ⟨200, 100, 0x2008, 0, 0⟩ < UINT_MAX ∧
    (frame_err (tie_catalog.ov5640_framesizes 3) ⟨200, 100, 0x2008, 0, 0⟩
        = frame_err (tie_catalog.ov5640_framesizes 2) ⟨200, 100, 0x2008, 0, 0⟩ → 2 ≤ 3) :=
  ⟨by decide, by decide, by decide, by decide, by decide,
    (try_frame_size_first_of_nearest tie_catalog ⟨200, 100, 0x2008, 0, 0⟩
      (⟨100, 100, 0x2008, 0, 0⟩, 2) 3 (by decide) (by decide)
      (by decide) (by decide) (by decide)).2.2.2.2⟩

set_option maxRecDepth 100000 in
/-- The bit operations of the mirror and flip handlers on a byte: what the C
expressions yield, the state of bits 1 and 2, the six other bits, and that a
second application changes nothing. -/
theorem orientation_byte : ∀ r, r < 256 →
    (r ||| (0x3 <<< 1)) % 2 ^ 8 = r ||| 6 ∧
    (r &&& (0xffffffff ^^^ (0x3 <<< 1))) % 2 ^ 8 = r &&& 0xf9 ∧
    (r ||| 6).testBit 1 = true ∧ (r ||| 6).testBit 2 = true ∧
    (r &&& 0xf9).testBit 1 = false ∧ (r &&& 0xf9).testBit 2 = false ∧
    ((r ||| 6).testBit 0 = r.testBit 0 ∧ (r ||| 6).testBit 3 = r.testBit 3 ∧
      (r ||| 6).testBit 4 = r.testBit 4 ∧ (r ||| 6).testBit 5 = r.testBit 5 ∧
      (r ||| 6).testBit 6 = r.testBit 6 ∧ (r ||| 6).testBit 7 = r.testBit 7) ∧
    ((r &&& 0xf9).testBit 0 = r.testBit 0 ∧ (r &&& 0xf9).testBit 3 = r.testBit 3 ∧
      (r &&& 0xf9).testBit 4 = r.testBit 4 ∧ (r &&& 0xf9).testBit 5 = r.testBit 5 ∧
      (r &&& 0xf9).testBit 6 = r.testBit 6 ∧ (r &&& 0xf9).testBit 7 = r.testBit 7) ∧
    (r ||| 6) ||| 6 = r ||| 6 ∧ (r &&& 0xf9) &&& 0xf9 = r &&& 0xf9 := by
  decide

/-- The value written back for a byte r and a request b: bits 1 and 2 are set
exactly for a request that is not zero, the other six bits are those of r, and
the same request applied to the result changes nothing. -/
theorem orientation_bits_spec (r b : Nat) (hr : r < 256) :
    (orientation_bits r b).testBit 1 = decide (b ≠ 0) ∧
    (orientation_bits r b).testBit 2 = decide (b ≠ 0) ∧
    (∀ i, i < 8 → i ≠ 1 → i ≠ 2 → (orientation_bits r b).testBit i = r.testBit i) ∧
    orientation_bits (orientation_bits r b) b = orientation_bits r b := by
  obtain ⟨_, _, h1, h2, h3, h4, ⟨a0, a3, a4, a5, a6, a7⟩, ⟨b0, b3, b4, b5, b6, b7⟩, h5, h6⟩ :=
    orientation_byte r hr
  by_cases hb : b = 0
  · simp only [orientation_bits, hb, ne_eq, not_true_eq_false, if_false, decide_False]
    refine ⟨h3, h4, ?_, h6⟩
    intro i hi hi1 hi2
    interval_cases i
    · exact b0
    · exact absurd rfl hi1
    · exact absurd rfl hi2
    · exact b3
    · exact b4
    · exact b5
    · exact b6
    · exact b7
  · simp only [orientation_bits, ne_eq, hb, not_false_eq_true, if_true, decide_True]
    refine ⟨h1, h2, ?_, h5⟩
    intro i hi hi1 hi2
    interval_cases i
    · exact a0
    · exact absurd rfl hi1
    · exact absurd rfl hi2
    · exact a3
    · exact a4
    · exact a5
    · exact a6
    · exact a7

/-- The byte ov5640_read leaves in its buffer is below 256 whatever the read
returns, when the buffer held such a byte before. -/
theorem read_byte (client : Option i2c_client) (reg v : Nat) (hv : v < 256) :
    (ov5640_read client reg v).2.1 < 256 := by
  cases client with
  | none => exact hv
  | some cl =>
    unfold ov5640_read
    simp only
    split
    · exact hv
    · split
      · exact Nat.mod_lt _ (by decide)
      · exact Nat.mod_lt _ (by decide)

/-- C20: each handler on its own. Whatever byte r the read of register 0x3821
leaves in the buffer of module_s_mirror, the handler writes back to 0x3821 the
value with bits 1 and 2 set for a request that is not zero and cleared for
zero, the other six bits being those of r, and returns 0; the same request
applied to the value written yields that value again. The same holds for
module_s_flip with the byte q read from register 0x3820. A read that succeeds
has ret = 0 and is one case of each part. -/
theorem orientation_handlers (client : Option i2c_client) (b : Nat) :
    (∀ (ret : Int) (r : Nat) (c1 : Option i2c_client),
      ov5640_read client 0x3821 0x00 = (ret, r, c1) →
      module_s_mirror client b = (0, (ov5640_write c1 0x3821 (orientation_bits r b)).2) ∧
      r < 256 ∧
      (orientation_bits r b).testBit 1 = decide (b ≠ 0) ∧
      (orientation_bits r b).testBit 2 = decide (b ≠ 0) ∧
      (∀ i, i < 8 → i ≠ 1 → i ≠ 2 → (orientation_bits r b).testBit i = r.testBit i) ∧
      orientation_bits (orientation_bits r b) b = orientation_bits r b) ∧
    (∀ (ret : Int) (q : Nat) (c2 : Option i2c_client),
      ov5640_read client 0x3820 0x40 = (ret, q, c2) →
      module_s_flip client b = (0, (ov5640_write c2 0x3820 (orientation_bits q b)).2) ∧
      q < 256 ∧
      (orientation_bits q b).testBit 1 = decide (b ≠ 0) ∧
      (orientation_bits q b).testBit 2 = decide (b ≠ 0) ∧
      (∀ i, i < 8 → i ≠ 1 → i ≠ 2 → (orientation_bits q b).testBit i = q.testBit i) ∧
      orientation_bits (orientation_bits q b) b = orientation_bits q b) := by
  constructor
  · intro ret r c1 hm
    have hr : r < 256 := by
      have := read_byte client 0x3821 0x00 (by decide)
      rw [hm] at this
      exact this
    obtain ⟨r1, r2, _⟩ := orientation_byte r hr
    obtain ⟨s1, s2, s3, s4⟩ := orientation_bits_spec r b hr
    refine ⟨?_, hr, s1, s2, s3, s4⟩
    unfold module_s_mirror
    simp only [hm, orientation_bits]
    by_cases hb : b = 0
    · simp only [hb, ne_eq, not_true_eq_false, if_false, r2]
    · simp only [ne_eq, hb, not_false_eq_true, if_true, r1]
  · intro ret q c2 hf
    have hq : q < 256 := by
      have := read_byte client 0x3820 0x40 (by decide)
      rw [hf] at this
      exact this
    obtain ⟨q1, q2, _⟩ := orientation_byte q hq
    obtain ⟨s1, s2, s3, s4⟩ := orientation_bits_spec q b hq
    refine ⟨?_, hq, s1, s2, s3, s4⟩
    unfold module_s_flip
    simp only [hf, orientation_bits]
    by_cases hb : b = 0
    · simp only [hb, ne_eq, not_true_eq_false, if_false, q2]
    · simp only [ne_eq, hb, not_false_eq_true, if_true, q1]

/-- Witness for C20: the sample bus delivers 0x40 from register 0x3821; the
mirror request 1 writes 0x46 back to 0x3821, and the flip request 0 on a
missing bus handle, whose read fails and leaves 0x40, works on 0x40. -/
theorem orientation_handlers_witness :
    ov5640_read (some sample_client) 0x3821 0x00
      = (0, 0x40, (ov5640_read (some sample_client) 0x3821 0x00).2.2) ∧
    module_s_mirror (some sample_client) 1
      = (0, (ov5640_write (ov5640_read (some sample_client) 0x3821 0x00).2.2 0x3821
          (orientation_bits 0x40 1)).2) ∧
    orientation_bits 0x40 1 = 0x46 ∧
    module_s_flip none 0 = (0, (ov5640_write none 0x3820 (orientation_bits 0x40 0)).2) :=
  ⟨rfl,
    ((orientation_handlers (some sample_client) 1).1 0 0x40
      (ov5640_read (some sample_client) 0x3821 0x00).2.2 rfl).1,
    by decide,
    ((orientation_handlers none 0).2 (- EIO) 0x40 none rfl).1⟩

/-! ## Theorems on the stored frame rate and on the positions the scan reads -/

/-- The requests other than ov5640_set_framerate leave the stored frame rate
as it is. -/
theorem other_requests_keep_frame_rate (t : ctrl_tables) (c : catalog) (d : ov5640)
    (id : ctrl_id) (v on_ : Int) (mf : v4l2_mbus_framefmt) :
    (ov5640_s_ctrl t d id v).2.frame_rate = d.frame_rate ∧
    (ov5640_start_stop_stream d on_).2.frame_rate = d.frame_rate ∧
    (ov5640_set_fmt c d mf).map (fun r => r.2.2.frame_rate)
      = (ov5640_set_fmt c d mf).map (fun _ => d.frame_rate) := by
  refine ⟨rfl, ?_, ?_⟩
  · unfold ov5640_start_stop_stream
    simp only
    split <;> rfl
  · unfold ov5640_set_fmt
    cases ov5640_try_frame_size c mf with
    | none => rfl
    | some ts =>
      dsimp only
      generalize set_fmt_loop _ _ _ _ = found
      cases found with
      | none => rfl
      | some index =>
        simp only [Nat.not_lt_zero, if_false]
        split
        · rfl
        · split <;> rfl

/-- C21: the sample device holds the frame rate 30; ov5640_set_framerate with
the denominator 100 returns the invalid-argument error without any transfer,
yet the rate stored afterwards is 100: the value is stored in front of the
comparison with 30. -/
theorem set_framerate_stores_refused_rate :
    sample_device.frame_rate ≤ 30 ∧
    (ov5640_set_framerate sample_catalog sample_device 100).1 = - EINVAL ∧
    (ov5640_set_framerate sample_catalog sample_device 100).2.frame_rate = 100 ∧
    ¬ (ov5640_set_framerate sample_catalog sample_device 100).2.frame_rate ≤ 30 ∧
    log_of (ov5640_set_framerate sample_catalog sample_device 100).2.client = some [] := by
  decide

/-- The loop with the positions read has the result of the loop of
ov5640_try_frame_size. The positions it reads are consecutive from the start
of the pointer on: as many as there are iterations when the loop has a result,
and otherwise up to a position behind the table, the one at which the register
pointer is read. -/
theorem try_frame_size_loop_reads_spec (c : catalog) (mf : v4l2_mbus_framefmt) :
    ∀ (i fsize min_err : Nat) (found : Option Nat),
      (try_frame_size_loop_reads c mf i fsize min_err found).1
        = try_frame_size_loop c mf i fsize min_err found ∧
      ∃ n, n ≤ i ∧
        (try_frame_size_loop_reads c mf i fsize min_err found).2 = List.range' fsize n ∧
        ((try_frame_size_loop c mf i fsize min_err found).isSome = true → n = i) ∧
        (n < i → 0 < n ∧ c.n_framesizes < fsize + n) := by
  intro i
  induction i with
  | zero =>
    intro fsize min_err found
    exact ⟨rfl, 0, le_refl 0, rfl, fun _ => rfl, fun h => absurd h (Nat.lt_irrefl 0)⟩
  | succ n ih =>
    intro fsize min_err found
    have step : ∀ (m : Nat) (fd : Option Nat),
        (try_frame_size_loop_reads c mf n (fsize + 1) m fd).1
          = try_frame_size_loop c mf n (fsize + 1) m fd ∧
        ∃ k, k ≤ n + 1 ∧
          fsize :: (try_frame_size_loop_reads c mf n (fsize + 1) m fd).2
            = List.range' fsize k ∧
          ((try_frame_size_loop c mf n (fsize + 1) m fd).isSome = true → k = n + 1) ∧
          (k < n + 1 → 0 < k ∧ c.n_framesizes < fsize + k) := by
      intro m fd
      obtain ⟨h1, k, hk, hr, hs, hf⟩ := ih (fsize + 1) m fd
      refine ⟨h1, k + 1, by omega, ?_, fun h => by rw [hs h], fun h => ?_⟩
      · rw [hr, List.range'_succ]
      · have := hf (by omega)
        omega
    rw [try_frame_size_loop_reads, try_frame_size_loop]
    by_cases hc : frame_err (c.ov5640_framesizes fsize) mf < min_err
    · simp only [if_pos hc]
      by_cases hN : fsize < c.n_framesizes
      · simp only [if_pos hN]
        by_cases hq : (reg_at (c.ov5640_framesizes fsize).regs 0).addr ≠ 0
        · simp only [if_pos hq]
          exact step _ _
        · simp only [if_neg hq]
          exact step _ _
      · rw [if_neg hN, if_neg hN]
        refine ⟨rfl, 1, by omega, rfl, ?_, ?_⟩
        · intro h
          cases h
        · intro _
          exact ⟨by omega, by omega⟩
    · simp only [if_neg hc]
      exact step _ _

/-- The scan of ov5640_try_frame_size reads consecutive positions from 2 on,
for every catalog and every request: up to the number of catalog entries plus
one when the lookup returns, and in every case, for a table that is not
empty, up to a position behind the last entry. -/
theorem try_frame_size_reads_range (c : catalog) (mf : v4l2_mbus_framefmt) :
    ∃ n, n ≤ c.n_framesizes ∧
      try_frame_size_reads c mf = List.range' 2 n ∧
      ((ov5640_try_frame_size c mf).isSome = true → n = c.n_framesizes) ∧
      (0 < c.n_framesizes → 0 < n ∧ c.n_framesizes < 2 + n) := by
  obtain ⟨_, n, hn, hr, hs, hf⟩ :=
    try_frame_size_loop_reads_spec c mf c.n_framesizes 2 UINT_MAX none
  refine ⟨n, hn, hr, fun h => hs ?_, fun hpos => ?_⟩
  · cases hl : try_frame_size_loop c mf c.n_framesizes 2 UINT_MAX none with
    | none =>
      rw [try_frame_size_of_fault c mf hl] at h
      cases h
    | some found => rfl
  · rcases Nat.lt_or_ge n c.n_framesizes with hlt | hge
    · exact hf hlt
    · omega

/-- C22: on the sample frame-size table of three entries the scan reads the
positions 2, 3 and 4: positions 3 and 4 lie behind the last entry of the
catalog, and the entries 0 and 1 are not visited. -/
theorem try_frame_size_reads_past_catalog :
    sample_catalog.n_framesizes = 3 ∧
    try_frame_size_reads sample_catalog ⟨640, 480, 0x2008, 0, 0⟩ = [2, 3, 4] ∧
    ¬ (∀ p ∈ try_frame_size_reads sample_catalog ⟨640, 480, 0x2008, 0, 0⟩,
        p < sample_catalog.n_framesizes) ∧
    0 ∉ try_frame_size_reads sample_catalog ⟨640, 480, 0x2008, 0, 0⟩ ∧
    1 ∉ try_frame_size_reads sample_catalog ⟨640, 480, 0x2008, 0, 0⟩ := by
  decide

/-! ## Theorems on the repeated frame-size lookup -/

/-- A request with the width and height of a descriptor is at distance 0 from
it. -/
theorem frame_err_self (f : ov5640_framesize) (code field colorspace : Nat) :
    frame_err f ⟨f.width, f.height, code, field, colorspace⟩ = 0 := by
  have hw : (f.width % 2 ^ 32 + 2 ^ 32 - f.width % 2 ^ 32) % 2 ^ 32 = 0 := by omega
  have hh : (f.height % 2 ^ 32 + 2 ^ 32 - f.height % 2 ^ 32) % 2 ^ 32 = 0 := by omega
  unfold frame_err
  simp only [hw, hh]
  decide

/-- With widths and heights below 2^31 the distance is 0 only for equal width
and equal height. -/
theorem frame_err_zero (f : ov5640_framesize) (mf : v4l2_mbus_framefmt)
    (h1 : f.width < 2 ^ 31) (h2 : f.height < 2 ^ 31)
    (h3 : mf.width < 2 ^ 31) (h4 : mf.height < 2 ^ 31)
    (h : frame_err f mf = 0) : f.width = mf.width ∧ f.height = mf.height := by
  unfold frame_err kernel_abs at h
  split_ifs at h <;> omega

/-- With the minimum distance at 0 the loop of ov5640_try_frame_size reads no
register pointer any more and ends with the match it has. -/
theorem try_frame_size_loop_zero (c : catalog) (mf : v4l2_mbus_framefmt) :
    ∀ (i f : Nat) (found : Option Nat),
      try_frame_size_loop c mf i f 0 found = some found := by
  intro i
  induction i with
  | zero =>
    intro f found
    rfl
  | succ n ih =>
    intro f found
    rw [try_frame_size_loop]
    simp only [Nat.not_lt_zero, if_false]
    exact ih (f + 1) found

/-- When an entry k of the table with a register sequence lies at the distance
0 and is still to be scanned, the loop of ov5640_try_frame_size has a result:
behind k the minimum distance is 0 and no register pointer is read. -/
theorem try_frame_size_loop_returns (c : catalog) (mf : v4l2_mbus_framefmt) (k : Nat)
    (hk : k < c.n_framesizes) (hq : (reg_at (c.ov5640_framesizes k).regs 0).addr ≠ 0)
    (herr : frame_err (c.ov5640_framesizes k) mf = 0) :
    ∀ (i f min_err : Nat) (found : Option Nat), f ≤ k → k < f + i →
      ∃ res, try_frame_size_loop c mf i f min_err found = some res := by
  intro i
  induction i with
  | zero =>
    intro f min_err found h1 h2
    omega
  | succ n ih =>
    intro f min_err found h1 h2
    rw [try_frame_size_loop]
    rcases Nat.lt_or_ge f k with hlt | hge
    · have hN : f < c.n_framesizes := by omega
      by_cases hc : frame_err (c.ov5640_framesizes f) mf < min_err
      · simp only [if_pos hc, if_pos hN]
        by_cases hq1 : (reg_at (c.ov5640_framesizes f).regs 0).addr ≠ 0
        · simp only [if_pos hq1]
          exact ih (f + 1) _ _ (by omega) (by omega)
        · simp only [if_neg hq1]
          exact ih (f + 1) _ _ (by omega) (by omega)
      · simp only [if_neg hc]
        exact ih (f + 1) _ _ (by omega) (by omega)
    · have hfk : f = k := by omega
      subst hfk
      by_cases hc : frame_err (c.ov5640_framesizes f) mf < min_err
      · rw [if_pos hc, if_pos hk, if_pos hq, herr]
        exact ⟨_, try_frame_size_loop_zero c mf n (f + 1) (some f)⟩
      · simp only [if_neg hc]
        have hz : min_err = 0 := by omega
        rw [hz]
        exact ⟨_, try_frame_size_loop_zero c mf n (f + 1) found⟩

/-- C23, as stated, fails on the table of four entries whose entry 2, 100x100,
has no register sequence and whose entry 3 is 1x1: for the request
2147483648 x 2147483649 entry 3, the only scanned entry with a sequence, lies
at the distance UINT_MAX exactly and is not taken, the fallback entry 2
answers with 100x100; applied again to 100x100 the lookup takes entry 3 at the
distance 198 and answers with 1x1. The two records behind the table lie at the
distance UINT_MAX in the first lookup and at 200 in the second, never below
the minimum, so their register pointers are not read. -/
theorem try_frame_size_not_idempotent :
    fallback_catalog.n_framesizes = 4 ∧
    (reg_at (fallback_catalog.ov5640_framesizes 2).regs 0).addr = 0 ∧
    (reg_at (fallback_catalog.ov5640_framesizes 3).regs 0).addr ≠ 0 ∧
    frame_err (fallback_catalog.ov5640_framesizes 3) ⟨2147483648, 2147483649, 0x2008, 0, 0⟩
      = UINT_MAX ∧
    frame_err (fallback_catalog.ov5640_framesizes 4) ⟨2147483648, 2147483649, 0x2008, 0, 0⟩
      = UINT_MAX ∧
    frame_err (fallback_catalog.ov5640_framesizes 5) ⟨2147483648, 2147483649, 0x2008, 0, 0⟩
      = UINT_MAX ∧
    ov5640_try_frame_size fallback_catalog ⟨2147483648, 2147483649, 0x2008, 0, 0⟩
      = some (⟨100, 100, 0x2008, 0, 0⟩, 2) ∧
    frame_err (fallback_catalog.ov5640_framesizes 3) ⟨100, 100, 0x2008, 0, 0⟩ = 198 ∧
    frame_err (fallback_catalog.ov5640_framesizes 4) ⟨100, 100, 0x2008, 0, 0⟩ = 200 ∧
    frame_err (fallback_catalog.ov5640_framesizes 5) ⟨100, 100, 0x2008, 0, 0⟩ = 200 ∧
    ov5640_try_frame_size fallback_catalog ⟨100, 100, 0x2008, 0, 0⟩
      = some (⟨1, 1, 0x2008, 0, 0⟩, 3) := by
  decide

/-- C23, amended: let ov5640_try_frame_size return r for a request. Then the
width and height of r.1 are those of the descriptor r.2, and r.2 is a scanned
entry of the table (from entry 2 on) with a register sequence or the fallback
entry 2. The lookup applied again to r.1 returns r.1 again when the scanned
entries of the table have widths and heights below 2^31 and one of them, with
a register sequence, lies at a distance below UINT_MAX from the request; and
when no scanned entry of the table has a register sequence, the lookup applied
again to r.1 yields r.1 whenever it returns. -/
theorem try_frame_size_idempotent (c : catalog) (mf : v4l2_mbus_framefmt)
    (r : v4l2_mbus_framefmt × Nat)
    (hr : ov5640_try_frame_size c mf = some r) :
    r.1.width = (c.ov5640_framesizes r.2).width ∧
    r.1.height = (c.ov5640_framesizes r.2).height ∧
    ((2 ≤ r.2 ∧ r.2 < c.n_framesizes ∧
        (reg_at (c.ov5640_framesizes r.2).regs 0).addr ≠ 0) ∨ r.2 = 2) ∧
    ((∀ j, 2 ≤ j → j < c.n_framesizes →
        (c.ov5640_framesizes j).width < 2 ^ 31 ∧ (c.ov5640_framesizes j).height < 2 ^ 31) →
      (∃ j, 2 ≤ j ∧ j < c.n_framesizes ∧
        (reg_at (c.ov5640_framesizes j).regs 0).addr ≠ 0 ∧
        frame_err (c.ov5640_framesizes j) mf < UINT_MAX) →
      ∃ k1, ov5640_try_frame_size c r.1 = some (r.1, k1)) ∧
    ((∀ j, 2 ≤ j → j < c.n_framesizes →
        (reg_at (c.ov5640_framesizes j).regs 0).addr = 0) →
      ∀ r2, ov5640_try_frame_size c r.1 = some r2 → r2.1 = r.1) := by
  have hmax : UINT_MAX = 2 ^ 32 - 1 := rfl
  rcases try_frame_size_cases c mf r hr with ⟨k, hk, hrk⟩ | ⟨hnone, hrn⟩
  · obtain ⟨hk2, hkN, hkq, _⟩ := (try_frame_size_scan c mf).1 k hk
    rw [hrk]
    refine ⟨rfl, rfl, Or.inl ⟨hk2, hkN, hkq⟩, ?_, ?_⟩
    · intro hdim _
      have hself : frame_err (c.ov5640_framesizes k)
          ⟨(c.ov5640_framesizes k).width, (c.ov5640_framesizes k).height, mf.code, mf.field,
            mf.colorspace⟩ = 0 := frame_err_self _ _ _ _
      obtain ⟨res, hres⟩ := try_frame_size_loop_returns c
        ⟨(c.ov5640_framesizes k).width, (c.ov5640_framesizes k).height, mf.code, mf.field,
          mf.colorspace⟩ k hkN hkq hself c.n_framesizes 2 UINT_MAX none hk2 (by omega)
      cases res with
      | none =>
        have hge := (try_frame_size_scan c _).2 hres k hk2 hkN hkq
        rw [hself] at hge
        omega
      | some k1 =>
        obtain ⟨hk12, hk1N, _, hmin⟩ := (try_frame_size_scan c _).1 k1 hres
        have hle := (hmin k hk2 hkN hkq).1
        rw [hself] at hle
        have hz := frame_err_zero (c.ov5640_framesizes k1)
          ⟨(c.ov5640_framesizes k).width, (c.ov5640_framesizes k).height, mf.code, mf.field,
            mf.colorspace⟩ (hdim k1 hk12 hk1N).1
          (hdim k1 hk12 hk1N).2 (hdim k hk2 hkN).1 (hdim k hk2 hkN).2 (Nat.le_zero.mp hle)
        have e2 := try_frame_size_of_some c _ k1 hres
        simp only [hz.1, hz.2] at e2
        exact ⟨k1, e2⟩
    · intro hempty
      exact absurd (hempty k hk2 hkN) hkq
  · rw [hrn]
    refine ⟨rfl, rfl, Or.inr rfl, ?_, ?_⟩
    · intro _ hq
      obtain ⟨j, hj2, hjN, hjq, hjerr⟩ := hq
      have hge := (try_frame_size_scan c mf).2 hnone j hj2 hjN hjq
      omega
    · intro hempty r2 h2
      rcases try_frame_size_cases c _ r2 h2 with ⟨k1, hk1, _⟩ | ⟨_, hr2⟩
      · obtain ⟨hk12, hk1N, hk1q, _⟩ := (try_frame_size_scan c _).1 k1 hk1
        exact absurd (hempty k1 hk12 hk1N) hk1q
      · rw [hr2]

/-- Witness for C23 amended: the request 640x480 on the sample frame-size
table comes back as 1280x720 with entry 2, which has a register sequence, and
1280x720 comes back as 1280x720. -/
theorem try_frame_size_idempotent_witness :
    ov5640_try_frame_size sample_catalog ⟨640, 480, 0x2008, 0, 0⟩
      = some (⟨1280, 720, 0x2008, 0, 0⟩, 2) ∧
    (∀ j, 2 ≤ j → j < sample_catalog.n_framesizes →
      (sample_catalog.ov5640_framesizes j).width < 2 ^ 31 ∧
      (sample_catalog.ov5640_framesizes j).height < 2 ^ 31) ∧
    (∃ j, 2 ≤ j ∧ j < sample_catalog.n_framesizes ∧
      (reg_at (sample_catalog.ov5640_framesizes j).regs 0).addr ≠ 0 ∧
      frame_err (sample_catalog.ov5640_framesizes j) ⟨640, 480, 0x2008, 0, 0⟩ < UINT_MAX) ∧
    ∃ k1, ov5640_try_frame_size sample_catalog ⟨1280, 720, 0x2008, 0, 0⟩
      = some (⟨1280, 720, 0x2008, 0, 0⟩, k1) :=
  have hdim : ∀ j, 2 ≤ j → j < sample_catalog.n_framesizes →
      (sample_catalog.ov5640_framesizes j).width < 2 ^ 31 ∧
      (sample_catalog.ov5640_framesizes j).height < 2 ^ 31 := by
    intro j h1 h2
    have h3 : j < 3 := h2
    interval_cases j
    decide
  have hq : ∃ j, 2 ≤ j ∧ j < sample_catalog.n_framesizes ∧
      (reg_at (sample_catalog.ov5640_framesizes j).regs 0).addr ≠ 0 ∧
      frame_err (sample_catalog.ov5640_framesizes j) ⟨640, 480, 0x2008, 0, 0⟩ < UINT_MAX :=
    ⟨2, by decide, by decide, by decide, by decide⟩
  ⟨by decide, hdim, hq,
    (try_frame_size_idempotent sample_catalog ⟨640, 480, 0x2008, 0, 0⟩
      (⟨1280, 720, 0x2008, 0, 0⟩, 2) (by decide)).2.2.2.1 hdim hq⟩

end Ov5640
